import Mathlib

/-! WinCamHTTP: identity derivation, registration index and configuration store.

A shallow embedding of the identity-resolution layer of WinCamHTTP:

* `VCamSampleSource` : the activation DLL (`dllmain.cpp`),
* `VCamSample`       : the configuration editor (`VCamSample.cpp`),
* `WinCamHTTP`       : the lifecycle manager (`WinCamHTTP.cpp`).

Wide strings are lists of UTF-16 code units, machine integers are natural
numbers reduced modulo `2^32` where the source computes in `DWORD`.
-/

set_option autoImplicit false

/-! ## Wide strings -/

/-- A `std::wstring`: a finite sequence of UTF-16 code units (`wchar_t`, 16 bits on
Windows).  A NUL code unit `0` may occur inside a `std::wstring`. -/
abbrev WString := List Nat

/-- The wide literal `L"..."` of an ASCII text. -/
def L (s : String) : WString := s.toList.map Char.toNat

/-- The buffer behind `s.c_str()`: the code units of `s` followed by the terminator. -/
def c_str (s : WString) : List Nat := s ++ [0]

/-- Building a `std::wstring` from a `const wchar_t*` (as in `camera.id = cameraId`):
the code units of the buffer up to, and without, the first NUL. -/
def wstringOfBuffer : List Nat → WString
  | [] => []
  | c :: rest => if c = 0 then [] else c :: wstringOfBuffer rest

/-! ## GUIDs -/

/-- The Windows `GUID` structure: `Data1` (32 bits), `Data2`, `Data3` (16 bits each)
and the eight bytes `Data4[0..7]`. -/
structure GUID where
  Data1 : Nat
  Data2 : Nat
  Data3 : Nat
  Data4 : List Nat
  deriving DecidableEq, Repr

/-- The sixteen bytes of a `GUID` as it lies in memory on Windows (little-endian
scalar fields followed by `Data4`). -/
def GUID.bytes (g : GUID) : List Nat :=
  [g.Data1 % 256, g.Data1 / 256 % 256, g.Data1 / 65536 % 256, g.Data1 / 16777216 % 256,
   g.Data2 % 256, g.Data2 / 256 % 256,
   g.Data3 % 256, g.Data3 / 256 % 256] ++ g.Data4

/-- The base constant `{3cad447d-f283-4af4-a3b2-6f5363309f52}`; `dllmain.cpp` names it
`CLSID_VCamBase`, the two executables spell the same initialiser inline. -/
def CLSID_VCamBase : GUID :=
  { Data1 := 0x3cad447d, Data2 := 0xf283, Data3 := 0x4af4,
    Data4 := [0xa3, 0xb2, 0x6f, 0x53, 0x63, 0x30, 0x9f, 0x52] }

/-- The four assignments `clsid.Data4[4..7] = (hash >> 8k) & 0xFF` shared by the three
derivations. -/
def setHashBytes (clsid : GUID) (hash : Nat) : GUID :=
  { clsid with
    Data4 := (((clsid.Data4.set 4 (hash &&& 0xFF)).set 5 ((hash >>> 8) &&& 0xFF)).set 6
      ((hash >>> 16) &&& 0xFF)).set 7 ((hash >>> 24) &&& 0xFF) }

/-! ## Specification-side definitions (written from the spec's words) -/

/-- Spec: the 32-bit rolling hash `hash = hash*31 + codeUnit`, seeded at 0, iterated
left to right over the code units. -/
def specRollingHash (units : List Nat) : Nat :=
  units.foldl (fun h c => (h * 31 + c) % 2 ^ 32) 0

/-- Spec: the little-endian bytes of a 32-bit value. -/
def specLittleEndian32 (h : Nat) : List Nat :=
  [h % 256, h / 256 % 256, h / 65536 % 256, h / 16777216 % 256]

/-- Spec: `deriveIdentity`, the base constant with its last four bytes overwritten by
the little-endian bytes of the rolling hash. -/
def specDeriveIdentityBytes (units : List Nat) : List Nat :=
  CLSID_VCamBase.bytes.take 12 ++ specLittleEndian32 (specRollingHash units)

/-! ## The activation DLL: identity derivation -/

namespace VCamSampleSource

/-- The loop `for (int i = 0; cameraId[i] != 0; i++) hash = hash * 31 + cameraId[i];`
over the memory behind an `LPCWSTR`: it stops at the first NUL code unit.  `hash` is
a `DWORD`, so every step is reduced modulo `2^32`; the `int` index does not
overflow on a key name, which has at most 255 code units. -/
def hashLoop : List Nat → Nat → Nat
  | [], hash => hash
  | c :: rest, hash => if c = 0 then hash else hashLoop rest ((hash * 31 + c) % 4294967296)

/-- Translation of `GUID GenerateCameraClsid(LPCWSTR cameraId)` of `dllmain.cpp`; the
argument is the content of the buffer `cameraId` points to. -/
def GenerateCameraClsid (cameraId : List Nat) : GUID :=
  let clsid := CLSID_VCamBase
  let hash := hashLoop cameraId 0
  setHashBytes clsid hash

end VCamSampleSource

/-! ## The lifecycle manager: identity derivation -/

namespace WinCamHTTP

/-- The loop `for (int i = 0; i < (int)cameraId.length(); i++) hash = hash * 31 + cameraId[i];`
over a `std::wstring`: every code unit of the string is visited, NUL included. -/
def hashLoop : WString → Nat → Nat
  | [], hash => hash
  | c :: rest, hash => hashLoop rest ((hash * 31 + c) % 4294967296)

/-- Translation of `GUID GenerateCameraClsid(const std::wstring& cameraId)` of
`WinCamHTTP.cpp`. -/
def GenerateCameraClsid (cameraId : WString) : GUID :=
  let clsid : GUID :=
    { Data1 := 0x3cad447d, Data2 := 0xf283, Data3 := 0x4af4,
      Data4 := [0xa3, 0xb2, 0x6f, 0x53, 0x63, 0x30, 0x9f, 0x52] }
  let hash := hashLoop cameraId 0
  setHashBytes clsid hash

end WinCamHTTP

/-! ## The editor: identity derivation -/

namespace VCamSample

/-- The hash loop of `GenerateCameraClsidString`, over the full length of the string. -/
def hashLoop : WString → Nat → Nat
  | [], hash => hash
  | c :: rest, hash => hashLoop rest ((hash * 31 + c) % 4294967296)

/-- The local `clsid` of `GenerateCameraClsidString` after the four `Data4`
assignments, just before it is formatted. -/
def GenerateCameraClsidString_clsid (cameraId : WString) : GUID :=
  let clsid : GUID :=
    { Data1 := 0x3cad447d, Data2 := 0xf283, Data3 := 0x4af4,
      Data4 := [0xa3, 0xb2, 0x6f, 0x53, 0x63, 0x30, 0x9f, 0x52] }
  let hash := hashLoop cameraId 0
  setHashBytes clsid hash

/-- One upper-case hexadecimal digit as a code unit. -/
def hexDigit (d : Nat) : Nat := if d < 10 then 48 + d else 55 + d

/-- The conversions `%02X`, `%04X`, `%08X` of a value that fits the field width. -/
def hexField (width n : Nat) : WString :=
  (List.range width).reverse.map (fun i => hexDigit (n / 16 ^ i % 16))

/-- The `swprintf_s` call with format
`{%08X-%04X-%04X-%02X%02X-%02X%02X%02X%02X%02X%02X}`. -/
def formatClsid (g : GUID) : WString :=
  [123] ++ hexField 8 g.Data1 ++ [45] ++ hexField 4 g.Data2 ++ [45] ++ hexField 4 g.Data3
    ++ [45] ++ hexField 2 (g.Data4.getD 0 0) ++ hexField 2 (g.Data4.getD 1 0)
    ++ [45] ++ hexField 2 (g.Data4.getD 2 0) ++ hexField 2 (g.Data4.getD 3 0)
    ++ hexField 2 (g.Data4.getD 4 0) ++ hexField 2 (g.Data4.getD 5 0)
    ++ hexField 2 (g.Data4.getD 6 0) ++ hexField 2 (g.Data4.getD 7 0) ++ [125]

/-- Translation of `std::wstring GenerateCameraClsidString(const std::wstring& cameraId)`. -/
def GenerateCameraClsidString (cameraId : WString) : WString :=
  formatClsid (GenerateCameraClsidString_clsid cameraId)

end VCamSample

/-! ## Status codes -/

/-- The Win32 status `ERROR_SUCCESS`. -/
def ERROR_SUCCESS : Nat := 0

/-- The Win32 status `ERROR_FILE_NOT_FOUND`. -/
def ERROR_FILE_NOT_FOUND : Nat := 2

/-- The `HRESULT` `S_OK`; an `HRESULT` is kept as its unsigned 32-bit pattern. -/
def S_OK : Nat := 0

/-- The test `FAILED(hr)`: the sign bit of the 32-bit pattern is set. -/
def FAILED (hr : Nat) : Bool := decide (2147483648 ≤ hr)

/-- The test `SUCCEEDED(hr)`. -/
def SUCCEEDED (hr : Nat) : Bool := !FAILED hr

/-- The conversion `HRESULT_FROM_WIN32(x)`:
`(HRESULT)x <= 0 ? (HRESULT)x : (x & 0xFFFF) | (FACILITY_WIN32 << 16) | 0x80000000`. -/
def HRESULT_FROM_WIN32 (x : Nat) : Nat :=
  if x = 0 ∨ 2147483648 ≤ x then x else (x &&& 0x0000FFFF) ||| (7 <<< 16) ||| 0x80000000

/-! ## The configuration store

The registry subtree `HKEY_LOCAL_MACHINE\SOFTWARE\WinCamHTTP\Cameras`, seen through
the calls the three programs make on it.  Node names are key names: sequences of
non-NUL code units, at most 255 long (so the 256-unit name buffer of every
enumeration loop suffices).  When a key is created the registry compares names
without regard to case and reads a backslash as a path separator. -/

/-- One child node of the store with its five attributes; `none` is an attribute that
is not present.  A string attribute holds the code units that were written in front
of the terminator, an integer attribute a 32-bit value.  `readable` tells whether
`RegOpenKeyExW(..., KEY_READ, ...)` on the child succeeds. -/
structure RegNode where
  name : WString
  readable : Bool
  URL : Option WString
  Width : Option Nat
  Height : Option Nat
  FriendlyName : Option WString
  Enabled : Option Nat
  deriving DecidableEq, Repr

/-- The store: `status` is what `RegOpenKeyExW` answers for the root
(`ERROR_SUCCESS` when it can be opened), `nodes` are the children in the order
`RegEnumKeyExW` enumerates them. -/
structure Store where
  status : Nat
  nodes : List RegNode
  deriving DecidableEq, Repr

/-- The invariants the registry itself keeps on key names: no NUL, not empty, at most
255 code units, no two children with one name. -/
def Store.WellFormed (store : Store) : Prop :=
  (∀ n ∈ store.nodes, 0 ∉ n.name ∧ n.name ≠ [] ∧ n.name.length ≤ 255) ∧
    (store.nodes.map RegNode.name).Nodup

instance (store : Store) : Decidable store.WellFormed := by
  unfold Store.WellFormed; infer_instance

/-- The ids present in the store. -/
def Store.ids (store : Store) : List WString := store.nodes.map RegNode.name

/-- The call `RegQueryValueExW` on a string attribute with a buffer of `bufferUnits` code
units, followed by `std::wstring = buffer.data()`.  The call fails when the attribute
is missing and, with `ERROR_MORE_DATA`, when the data (string and terminator) does
not fit the buffer; `none` is a status other than `ERROR_SUCCESS`. -/
def RegQueryValueExW_string (value : Option WString) (bufferUnits : Nat) : Option WString :=
  match value with
  | none => none
  | some data =>
    if data.length + 1 ≤ bufferUnits then some (wstringOfBuffer (c_str data)) else none

/-- The call `RegQueryValueExW` on an integer attribute into a `DWORD` variable that holds
`current`: the variable is overwritten only when the attribute is present; the
second component tells whether the status was `ERROR_SUCCESS`. -/
def RegQueryValueExW_dword (value : Option Nat) (current : Nat) : Nat × Bool :=
  match value with
  | none => (current, false)
  | some v => (v, true)

/-- A readable child node named `name` that holds no attribute. -/
def bareNode (name : WString) : RegNode :=
  { name := name, readable := true, URL := none, Width := none, Height := none,
    FriendlyName := none, Enabled := none }

/-- The status `ERROR_ACCESS_DENIED`. -/
def ERROR_ACCESS_DENIED : Nat := 5

/-- The folding of the ASCII letters `a`..`z` to upper case; on these code units the
folding under which the registry compares key names is this one. -/
def asciiUpcase (c : Nat) : Nat := if 97 ≤ c ∧ c ≤ 122 then c - 32 else c

/-- What the registry answers during one run of `SaveCamerasToRegistry`: `upcase` is
the folding under which it compares key names, `RegDeleteTree` the status of the
deletion call, `RegCreateKeyExW` the status of the create call for the path that
follows `SOFTWARE\WinCamHTTP\Cameras\`. -/
structure Registry where
  upcase : Nat → Nat
  RegDeleteTree : Nat
  RegCreateKeyExW : WString → Nat

/-- The call `RegDeleteTree(HKEY_LOCAL_MACHINE, L"SOFTWARE\\WinCamHTTP\\Cameras")` that
answers `status`: with `ERROR_SUCCESS` the key and all below it are gone, so the root
can no longer be opened; with any other status (the key does not exist, access is
denied) the store is as it was. -/
def RegDeleteTree (status : Nat) (store : Store) : Store :=
  if status = ERROR_SUCCESS then { status := ERROR_FILE_NOT_FOUND, nodes := [] } else store

/-! ## `std::map` -/

/-- Modelled from the spec: `GUID_ToStringW(clsid, false)` of `Tools`, which is not
among the sources: the textual key of an identity.  The spec gives the index as
`map[ClassIdentity] -> id`, so the key stands for the identity itself. -/
def GUID_ToStringW (clsid : GUID) : GUID := clsid

/-- A `std::map<std::wstring, std::wstring>` keyed by `GUID_ToStringW(clsid, false)`:
an association list with at most one entry per key. -/
abbrev CameraMap := List (GUID × WString)

namespace StdMap

/-- The lookup `m.find(key)`; `none` is `m.end()`. -/
def find : CameraMap → GUID → Option WString
  | [], _ => none
  | (k, v) :: rest, key => if k = key then some v else find rest key

/-- The assignment `m[key] = value`: an existing entry is overwritten. -/
def assign : CameraMap → GUID → WString → CameraMap
  | [], key, value => [(key, value)]
  | (k, v) :: rest, key, value =>
    if k = key then (k, value) :: rest else (k, v) :: assign rest key value

/-- The call `m.clear()`. -/
def clear (_m : CameraMap) : CameraMap := []

/-- The call `m.empty()`. -/
def empty (m : CameraMap) : Bool := m.isEmpty

end StdMap

/-! ## The activation DLL: registration index -/

namespace VCamSampleSource

/-- The `while (RegEnumKeyExW(...) == ERROR_SUCCESS)` loop of `LoadCameraRegistrations`:
each child name arrives NUL-terminated in the buffer `cameraId`. -/
def enumLoop : List RegNode → CameraMap → CameraMap
  | [], g_cameraMap => g_cameraMap
  | n :: rest, g_cameraMap =>
    let cameraId := c_str n.name
    let clsid := GenerateCameraClsid cameraId
    let key := GUID_ToStringW clsid
    enumLoop rest (StdMap.assign g_cameraMap key (wstringOfBuffer cameraId))

/-- Translation of `void LoadCameraRegistrations()`; the global `g_cameraMap` is
passed in and returned. -/
def LoadCameraRegistrations (store : Store) (g_cameraMap : CameraMap) : CameraMap :=
  let g_cameraMap := StdMap.clear g_cameraMap
  if store.status ≠ ERROR_SUCCESS then
    let defaultClsid := CLSID_VCamBase
    StdMap.assign g_cameraMap (GUID_ToStringW defaultClsid) (L "Camera1")
  else
    let g_cameraMap := enumLoop store.nodes g_cameraMap
    if StdMap.empty g_cameraMap then
      let defaultClsid := CLSID_VCamBase
      StdMap.assign g_cameraMap (GUID_ToStringW defaultClsid) (L "Camera1")
    else g_cameraMap

/-- Translation of `std::wstring GetCameraIdForClsid(REFCLSID clsid)`: the returned id
and the index the call leaves behind. -/
def GetCameraIdForClsid (store : Store) (clsid : GUID) (g_cameraMap : CameraMap) :
    WString × CameraMap :=
  let key := GUID_ToStringW clsid
  match StdMap.find g_cameraMap key with
  | some id => (id, g_cameraMap)
  | none =>
    let g_cameraMap := LoadCameraRegistrations store g_cameraMap
    match StdMap.find g_cameraMap key with
    | some id => (id, g_cameraMap)
    | none => (L "Camera1", g_cameraMap)

end VCamSampleSource

/-! ## The editor: configuration store access -/

namespace VCamSample

/-- The record `struct CameraConfig`. -/
structure CameraConfig where
  id : WString
  url : WString
  friendlyName : WString
  width : Nat
  height : Nat
  enabled : Bool
  deriving DecidableEq, Repr

/-- The conversion `std::to_wstring(counter)` of a non-negative `int`: helper with an
accumulator, `fuel` bounds the number of digits. -/
def to_wstringAux : Nat → Nat → WString → WString
  | 0, _, acc => acc
  | fuel + 1, n, acc =>
    if n < 10 then (48 + n) :: acc else to_wstringAux fuel (n / 10) ((48 + n % 10) :: acc)

/-- The conversion `std::to_wstring(counter)`: the decimal digits as code units. -/
def to_wstring (n : Nat) : WString := to_wstringAux (n + 1) n []

/-- The inner loop of `GenerateUniqueCameraId`:
`for (const auto& camera : _cameras) if (camera.id == id) { exists = true; break; }`. -/
def idExists : List CameraConfig → WString → Bool
  | [], _ => false
  | camera :: rest, id => if camera.id = id then true else idExists rest id

/-- The `while (true)` loop of `GenerateUniqueCameraId`, run for at most `fuel`
candidates starting at `counter`; `none` means the fuel ran out before the loop
reached its `break`. -/
def GenerateUniqueCameraIdLoop (_cameras : List CameraConfig) : Nat → Nat → Option WString
  | 0, _ => none
  | fuel + 1, counter =>
    let id := L "Camera" ++ to_wstring counter
    if !idExists _cameras id then some id
    else GenerateUniqueCameraIdLoop _cameras fuel (counter + 1)

/-- Translation of `void GenerateUniqueCameraId(std::wstring& id)`: the loop started
with `int counter = 1` (the counter never exceeds the number of cameras plus one, so
it stays an `int`). -/
def GenerateUniqueCameraId (_cameras : List CameraConfig) (fuel : Nat) : Option WString :=
  GenerateUniqueCameraIdLoop _cameras fuel 1

/-- The body of the enumeration loop of `LoadCamerasFromRegistry` for a child that
could be opened: the definition that is pushed onto `_cameras`. -/
def readCamera (n : RegNode) : CameraConfig :=
  let cameraId := c_str n.name
  let id := wstringOfBuffer cameraId
  let url := match RegQueryValueExW_string n.URL 2048 with
    | some s => s
    | none => []
  let width := (RegQueryValueExW_dword n.Width 640).1
  let height := (RegQueryValueExW_dword n.Height 480).1
  let enabled := match RegQueryValueExW_dword n.Enabled 1 with
    | (v, true) => decide (v ≠ 0)
    | (_, false) => true
  let friendlyName := match RegQueryValueExW_string n.FriendlyName 256 with
    | some s => s
    | none => L "WinCamHTTP Virtual Camera " ++ id
  { id := id, url := url, friendlyName := friendlyName, width := width, height := height,
    enabled := enabled }

/-- The enumeration loop of `LoadCamerasFromRegistry`: a child that cannot be opened
is skipped. -/
def loadLoop : List RegNode → List CameraConfig → List CameraConfig
  | [], _cameras => _cameras
  | n :: rest, _cameras =>
    if n.readable then loadLoop rest (_cameras ++ [readCamera n]) else loadLoop rest _cameras

/-- Translation of `HRESULT LoadCamerasFromRegistry()`: the returned status and the new
content of the global `_cameras`. -/
def LoadCamerasFromRegistry (store : Store) (_cameras : List CameraConfig) :
    Nat × List CameraConfig :=
  let _cameras : List CameraConfig := []
  if store.status ≠ ERROR_SUCCESS then (S_OK, _cameras)
  else (S_OK, loadLoop store.nodes _cameras)

/-- The texts `SaveCamerasToRegistry` puts into the status control. -/
inductive StatusText where
  | allRemoved
  | failedToSave (id : WString) (error : Nat)
  | allSaved
  deriving DecidableEq, Repr

/-- The five `RegSetValueExW` calls on the open key `n` of one definition: `URL` and
`FriendlyName` are written with all `length()` code units and the terminator, `Width`
and `Height` as they are, `Enabled` as 1 or 0.  The source does not look at their
statuses; the key was opened for writing. -/
def setValues (camera : CameraConfig) (n : RegNode) : RegNode :=
  { n with URL := some camera.url, Width := some camera.width, Height := some camera.height,
           FriendlyName := some camera.friendlyName,
           Enabled := some (if camera.enabled then 1 else 0) }

/-- The node a definition gets when its key is created anew under its id, the id
read as the NUL-terminated `c_str()`. -/
def nodeOfCamera (camera : CameraConfig) : RegNode :=
  setValues camera (bareNode (wstringOfBuffer (c_str camera.id)))

/-- A successful `RegCreateKeyExW` on the child `name`, followed by the five value
writes.  A child whose name equals `name` under `upcase` is opened, not created: it
keeps its spelling and is given the new values. -/
def writeNode (upcase : Nat → Nat) (name : WString) (camera : CameraConfig) :
    List RegNode → List RegNode
  | [] => [setValues camera (bareNode name)]
  | n :: rest =>
    if n.name.map upcase = name.map upcase then setValues camera n :: rest
    else n :: writeNode upcase name camera rest

/-- A successful `RegCreateKeyExW` on a key below the child `name`: the child is
created without values when no child has that name under `upcase`. -/
def ensureNode (upcase : Nat → Nat) (name : WString) : List RegNode → List RegNode
  | [] => [bareNode name]
  | n :: rest =>
    if n.name.map upcase = name.map upcase then n :: rest
    else n :: ensureNode upcase name rest

/-- The branch `result == ERROR_SUCCESS` of the loop of `SaveCamerasToRegistry`: the
key `L"SOFTWARE\\WinCamHTTP\\Cameras\\" + camera.id`, passed as `regPath.c_str()`,
exists afterwards (and with it the root) and holds the five values.  `child` is the
first path component of the id and `deeper` tells whether another one follows.  With
no component at all (an empty id) the key is the root itself and no child changes;
with a further component the values land on a key below `child`, which the store
does not show. -/
def createKeyAndSetValues (upcase : Nat → Nat) (camera : CameraConfig) (store : Store) : Store :=
  let path := (wstringOfBuffer (c_str camera.id)).dropWhile (fun c => c = 92)
  let child := path.takeWhile (fun c => c ≠ 92)
  let deeper := (path.dropWhile (fun c => c ≠ 92)).any (fun c => c ≠ 92)
  if child = [] then { status := ERROR_SUCCESS, nodes := store.nodes }
  else if deeper then { status := ERROR_SUCCESS, nodes := ensureNode upcase child store.nodes }
  else { status := ERROR_SUCCESS, nodes := writeNode upcase child camera store.nodes }

/-- The loop `for (const auto& camera : _cameras)` of `SaveCamerasToRegistry`: the
first create call that does not answer `ERROR_SUCCESS` ends the function; the text
names the id through `camera.id.c_str()`. -/
def saveLoop (registry : Registry) : List CameraConfig → Store → Nat × StatusText × Store
  | [], store => (S_OK, StatusText.allSaved, store)
  | camera :: rest, store =>
    let result := registry.RegCreateKeyExW (wstringOfBuffer (c_str camera.id))
    if result = ERROR_SUCCESS then
      saveLoop registry rest (createKeyAndSetValues registry.upcase camera store)
    else
      (HRESULT_FROM_WIN32 result,
        StatusText.failedToSave (wstringOfBuffer (c_str camera.id)) result, store)

/-- Translation of `HRESULT SaveCamerasToRegistry()`: the returned status, the text put
into the status control and the store afterwards.  The status of `RegDeleteTree` is
not looked at. -/
def SaveCamerasToRegistry (registry : Registry) (_cameras : List CameraConfig)
    (store : Store) : Nat × StatusText × Store :=
  let store := RegDeleteTree registry.RegDeleteTree store
  if _cameras.isEmpty then (S_OK, StatusText.allRemoved, store)
  else saveLoop registry _cameras store

/-- Translation of `case 1002` (the Add Camera button) of `WndProc`: a definition with
a fresh id and the initial values is appended to `_cameras`; `none` when the search
for the id ran out of `fuel`. -/
def WndProc_1002 (_cameras : List CameraConfig) (fuel : Nat) : Option (List CameraConfig) :=
  match GenerateUniqueCameraId _cameras fuel with
  | none => none
  | some newId =>
    some (_cameras ++ [{ id := newId, url := L "",
                         friendlyName := L "WinCamHTTP Virtual Camera " ++ newId,
                         width := 640, height := 480, enabled := true }])

end VCamSample

/-! ## The lifecycle manager -/

namespace WinCamHTTP

/-- The record `struct CameraInfo`; `vcam` tells whether the `com_ptr` holds a virtual
camera object. -/
structure CameraInfo where
  id : WString
  friendlyName : WString
  url : WString
  width : Nat
  height : Nat
  clsid : GUID
  vcam : Bool
  deriving DecidableEq, Repr

/-- The body of the enumeration loop of `LoadCameraSettingsFromRegistry` for a child
that could be opened. -/
def readCamera (n : RegNode) : CameraInfo :=
  let cameraId := c_str n.name
  let id := wstringOfBuffer cameraId
  let clsid := GenerateCameraClsid id
  let url := match RegQueryValueExW_string n.URL 2048 with
    | some s => s
    | none => []
  let width := (RegQueryValueExW_dword n.Width 640).1
  let height := (RegQueryValueExW_dword n.Height 480).1
  let friendlyName := match RegQueryValueExW_string n.FriendlyName 256 with
    | some s => s
    | none => L "WinCamHTTP Virtual Camera " ++ id
  { id := id, friendlyName := friendlyName, url := url, width := width, height := height,
    clsid := clsid, vcam := false }

/-- The enumeration loop of `LoadCameraSettingsFromRegistry`. -/
def loadLoop : List RegNode → List CameraInfo → List CameraInfo
  | [], _cameras => _cameras
  | n :: rest, _cameras =>
    if n.readable then loadLoop rest (_cameras ++ [readCamera n]) else loadLoop rest _cameras

/-- Translation of `HRESULT LoadCameraSettingsFromRegistry()`. -/
def LoadCameraSettingsFromRegistry (store : Store) (_cameras : List CameraInfo) :
    Nat × List CameraInfo :=
  let _cameras : List CameraInfo := []
  if store.status ≠ ERROR_SUCCESS then (HRESULT_FROM_WIN32 store.status, _cameras)
  else (S_OK, loadLoop store.nodes _cameras)

/-- A call on the external media subsystem, with the id of the camera it is made for. -/
inductive ExternalCall where
  | MFCreateVirtualCamera (id friendlyName : WString) (clsid : GUID)
  | Start (id : WString)
  | Remove (id : WString)
  deriving DecidableEq, Repr

/-- The outcomes of the external calls, by the position of the camera in `_cameras`. -/
structure Outcomes where
  create : Nat → Nat
  start : Nat → Nat
  remove : Nat → Nat

/-- The loop of `RegisterVirtualCameras` from position `i` on: the status, the cameras
with their handles and the external calls made, in order.  The argument
`&camera.vcam` resets the `com_ptr` before the call, so a failing register call
leaves it null. -/
def registerLoop (mf : Outcomes) : Nat → List CameraInfo → Nat × List CameraInfo × List ExternalCall
  | _, [] => (S_OK, [], [])
  | i, camera :: rest =>
    let createCall := ExternalCall.MFCreateVirtualCamera camera.id camera.friendlyName camera.clsid
    let hrCreate := mf.create i
    if FAILED hrCreate then (hrCreate, { camera with vcam := false } :: rest, [createCall])
    else
      let camera := { camera with vcam := true }
      let hrStart := mf.start i
      if FAILED hrStart then (hrStart, camera :: rest, [createCall, ExternalCall.Start camera.id])
      else
        let r := registerLoop mf (i + 1) rest
        (r.1, camera :: r.2.1, createCall :: ExternalCall.Start camera.id :: r.2.2)

/-- Translation of `HRESULT RegisterVirtualCameras()`. -/
def RegisterVirtualCameras (mf : Outcomes) (_cameras : List CameraInfo) :
    Nat × List CameraInfo × List ExternalCall :=
  registerLoop mf 0 _cameras

/-- The loop of `UnregisterVirtualCameras` from position `i` on: every `Remove` call
made, with the status that is traced for it. -/
def unregisterLoop (mf : Outcomes) : Nat → List CameraInfo → List (ExternalCall × Nat)
  | _, [] => []
  | i, camera :: rest =>
    if camera.vcam then
      let hr := mf.remove i
      (ExternalCall.Remove camera.id, hr) :: unregisterLoop mf (i + 1) rest
    else unregisterLoop mf (i + 1) rest

/-- Translation of `HRESULT UnregisterVirtualCameras()`: the returned status and the
`Remove` calls with their traced statuses. -/
def UnregisterVirtualCameras (mf : Outcomes) (_cameras : List CameraInfo) :
    Nat × List (ExternalCall × Nat) :=
  (S_OK, unregisterLoop mf 0 _cameras)

/-- Translation of `wWinMain` from the loading of the settings on (window creation and
`MFStartup` have succeeded; the message loop ends with exit code `wParam`): the
exit code and the external calls of the whole run. -/
def wWinMain (store : Store) (mf : Outcomes) (wParam : Int) : Int × List ExternalCall :=
  let loaded := LoadCameraSettingsFromRegistry store []
  let settingsResult := loaded.1
  let _cameras := loaded.2
  if FAILED settingsResult || _cameras.isEmpty then (-1, [])
  else
    let r := RegisterVirtualCameras mf _cameras
    let hr := r.1
    let _cameras := r.2.1
    let _camerasStarted := SUCCEEDED hr
    let cleanup :=
      if _camerasStarted then (UnregisterVirtualCameras mf _cameras).2.map Prod.fst else []
    (wParam, r.2.2 ++ cleanup)

end WinCamHTTP

/-! ## Specification-side definitions for the store and the lifecycle manager -/

/-- Spec: the documented default of the friendly name,
`"WinCamHTTP Virtual Camera " + id`. -/
def specDefaultFriendlyName (id : WString) : WString := L "WinCamHTTP Virtual Camera " ++ id

/-- The store with the `Enabled` attribute of every node replaced by `enabled`. -/
def Store.withEnabled (store : Store) (enabled : RegNode → Option Nat) : Store :=
  { store with nodes := store.nodes.map (fun n => { n with Enabled := enabled n }) }

/-- Spec: the register call followed by the start call for each definition, in order. -/
def specRegisterAndStartAll : List WinCamHTTP.CameraInfo → List WinCamHTTP.ExternalCall
  | [] => []
  | camera :: rest =>
    WinCamHTTP.ExternalCall.MFCreateVirtualCamera camera.id camera.friendlyName camera.clsid ::
      WinCamHTTP.ExternalCall.Start camera.id :: specRegisterAndStartAll rest

/-- Spec: an integer attribute as loaded: the default when missing, else the stored
value. -/
def specDwordAttribute (stored : Option Nat) (default value : Nat) : Prop :=
  (stored = none → value = default) ∧ (∀ v, stored = some v → value = v)

/-- Spec: the enabled flag as loaded: true when `Enabled` is missing, else whether the
stored value is not zero. -/
def specEnabledAttribute (stored : Option Nat) (value : Bool) : Prop :=
  (stored = none → value = true) ∧ (∀ v, stored = some v → (value = true ↔ v ≠ 0))

/-- Spec: a string attribute as loaded through a read buffer of `bufferUnits` code
units: the default when the attribute is missing; when the stored value fits the
buffer, the stored value itself if it holds no NUL code unit and in any case the
stored value up to its first NUL; the default when it does not fit. -/
def specStringAttribute (stored : Option WString) (bufferUnits : Nat) (default value : WString) :
    Prop :=
  (stored = none → value = default) ∧
  (∀ s, stored = some s → s.length < bufferUnits → 0 ∉ s → value = s) ∧
  (∀ s, stored = some s → s.length < bufferUnits → value = s.takeWhile (fun c => c ≠ 0)) ∧
  (∀ s, stored = some s → bufferUnits ≤ s.length → value = default)

/-- Spec: the definition `LoadCamerasFromRegistry` returns for the node `n`. -/
def specLoadedDefinition (n : RegNode) (camera : VCamSample.CameraConfig) : Prop :=
  camera.id = n.name ∧
  specStringAttribute n.URL 2048 [] camera.url ∧
  specDwordAttribute n.Width 640 camera.width ∧
  specDwordAttribute n.Height 480 camera.height ∧
  specEnabledAttribute n.Enabled camera.enabled ∧
  specStringAttribute n.FriendlyName 256 (specDefaultFriendlyName n.name) camera.friendlyName

/-- Spec: the definition `LoadCameraSettingsFromRegistry` returns for the node `n`; it
has no enabled flag. -/
def specLoadedInfo (n : RegNode) (info : WinCamHTTP.CameraInfo) : Prop :=
  info.id = n.name ∧
  specStringAttribute n.URL 2048 [] info.url ∧
  specDwordAttribute n.Width 640 info.width ∧
  specDwordAttribute n.Height 480 info.height ∧
  specStringAttribute n.FriendlyName 256 (specDefaultFriendlyName n.name) info.friendlyName

/-- A store with three nodes: `Camera1` cannot be opened, `Camera2` holds a `URL` with
an embedded NUL and `Enabled = 0`, `Camera3` holds a `FriendlyName` of 256 code
units. -/
def mixedStore : Store :=
  { status := 0,
    nodes := [{ bareNode (L "Camera1") with readable := false, URL := some (L "http://cam/1") },
              { bareNode (L "Camera2") with URL := some [97, 0, 98], Enabled := some 0 },
              { bareNode (L "Camera3") with FriendlyName := some (List.replicate 256 65) }] }

/-- Two camera definitions used to exercise the store: `Camera1` (enabled) and
`Camera2` (disabled). -/
def sampleCameras : List VCamSample.CameraConfig :=
  [{ id := L "Camera1", url := L "http://cam/1", friendlyName := L "Front door",
     width := 640, height := 480, enabled := true },
   { id := L "Camera2", url := [], friendlyName := L "WinCamHTTP Virtual Camera Camera2",
     width := 1280, height := 720, enabled := false }]

/-! ## The activation DLL: class objects -/

/-- The `HRESULT` `E_POINTER`. -/
def E_POINTER : Nat := 0x80004003

/-- The `HRESULT` `E_NOINTERFACE`. -/
def E_NOINTERFACE : Nat := 0x80004002

namespace VCamSampleSource

/-- Translation of `STDAPI DllGetClassObject(REFCLSID rclsid, REFIID riid, LPVOID* ppv)`.
`ppv` tells whether the output pointer is non-null.  `QueryInterface` is the
`QueryInterface` of the `ClassFactory` object, which `winrt::implements` supplies:
its status for a requested interface.  The result is the returned status, the
identifier the created class factory is bound to (`none` when no factory is
created) and the index the call leaves behind. -/
def DllGetClassObject (QueryInterface : GUID → Nat) (store : Store) (rclsid riid : GUID)
    (ppv : Bool) (g_cameraMap : CameraMap) : Nat × Option GUID × CameraMap :=
  if !ppv then (E_POINTER, none, g_cameraMap)
  else
    let g_cameraMap := LoadCameraRegistrations store g_cameraMap
    let key := GUID_ToStringW rclsid
    match StdMap.find g_cameraMap key with
    | some _ => (QueryInterface riid, some rclsid, g_cameraMap)
    | none => (E_NOINTERFACE, none, g_cameraMap)

end VCamSampleSource

/-- The interface identifier `IID_IUnknown`, `00000000-0000-0000-C000-000000000046`. -/
def IID_IUnknown : GUID :=
  { Data1 := 0x00000000, Data2 := 0x0000, Data3 := 0x0000,
    Data4 := [0xC0, 0x00, 0x00, 0x00, 0x00, 0x00, 0x00, 0x46] }

/-- The interface identifier `IID_IClassFactory`, `00000001-0000-0000-C000-000000000046`. -/
def IID_IClassFactory : GUID :=
  { Data1 := 0x00000001, Data2 := 0x0000, Data3 := 0x0000,
    Data4 := [0xC0, 0x00, 0x00, 0x00, 0x00, 0x00, 0x00, 0x46] }

/-- The interface identifier `IID_IClassFactory2`, `B196B28F-BAB4-101A-B69C-00AA00341D07`,
an interface the class factory of the DLL does not implement. -/
def IID_IClassFactory2 : GUID :=
  { Data1 := 0xB196B28F, Data2 := 0xBAB4, Data3 := 0x101A,
    Data4 := [0xB6, 0x9C, 0x00, 0xAA, 0x00, 0x34, 0x1D, 0x07] }

/-- A `QueryInterface` that knows `IUnknown` and `IClassFactory` and answers
`E_NOINTERFACE` for every other interface. -/
def sampleQueryInterface (riid : GUID) : Nat :=
  if riid = IID_IUnknown ∨ riid = IID_IClassFactory then S_OK else E_NOINTERFACE

/-! ## Sample data for saving -/

/-- An elevated run: the deletion and every create call succeed. -/
def elevated : Registry :=
  { upcase := asciiUpcase, RegDeleteTree := ERROR_SUCCESS,
    RegCreateKeyExW := fun _ => ERROR_SUCCESS }

/-- A run without the rights to change `HKEY_LOCAL_MACHINE`: the deletion and every
create call are denied. -/
def notElevated : Registry :=
  { upcase := asciiUpcase, RegDeleteTree := ERROR_ACCESS_DENIED,
    RegCreateKeyExW := fun _ => ERROR_ACCESS_DENIED }

/-- A run in which the deletion succeeds and only the create call for `name` is
denied. -/
def createDeniedFor (name : WString) : Registry :=
  { upcase := asciiUpcase, RegDeleteTree := ERROR_SUCCESS,
    RegCreateKeyExW := fun path => if path = name then ERROR_ACCESS_DENIED else ERROR_SUCCESS }

/-- A store that holds the one node `Camera1` with all its attributes. -/
def camera1Store : Store :=
  { status := 0,
    nodes := [{ name := L "Camera1", readable := true, URL := some (L "http://cam/1"),
                Width := some 640, Height := some 480, FriendlyName := some (L "Front door"),
                Enabled := some 1 }] }

/-- A store that holds the one node `camera1`, spelled in lower case, without
attributes. -/
def lowerCaseStore : Store := { status := 0, nodes := [bareNode (L "camera1")] }

/-- The definition the editor loads from `lowerCaseStore`. -/
def lowerCaseCamera : VCamSample.CameraConfig :=
  { id := L "camera1", url := [], friendlyName := L "WinCamHTTP Virtual Camera camera1",
    width := 640, height := 480, enabled := true }

/-- The definition the Add Camera button appends to it. -/
def addedCamera : VCamSample.CameraConfig :=
  { id := L "Camera1", url := [], friendlyName := L "WinCamHTTP Virtual Camera Camera1",
    width := 640, height := 480, enabled := true }

/-- Spec: an id that names one key: not empty, without NUL and without backslash. -/
def specKeyName (id : WString) : Prop := id ≠ [] ∧ 0 ∉ id ∧ 92 ∉ id

instance (id : WString) : Decidable (specKeyName id) := by
  unfold specKeyName; infer_instance

/-- Spec: a definition as the editor holds it: the id names one key; the url is what
a 2048-unit buffer gives (no NUL, under 2048 code units); the friendly name is what a
256-unit buffer gives or the default name of the id. -/
def specEditorDefinition (camera : VCamSample.CameraConfig) : Prop :=
  specKeyName camera.id ∧ 0 ∉ camera.url ∧ camera.url.length < 2048 ∧
    0 ∉ camera.friendlyName ∧
    (camera.friendlyName.length < 256 ∨ camera.friendlyName = specDefaultFriendlyName camera.id)

instance (camera : VCamSample.CameraConfig) : Decidable (specEditorDefinition camera) := by
  unfold specEditorDefinition; infer_instance


/-- Three definitions `A`, `B`, `C`. -/
def abcCameras : List VCamSample.CameraConfig :=
  [{ id := L "A", url := L "http://cam/a", friendlyName := L "Cam A",
     width := 640, height := 480, enabled := true },
   { id := L "B", url := L "http://cam/b", friendlyName := L "Cam B",
     width := 800, height := 600, enabled := true },
   { id := L "C", url := L "http://cam/c", friendlyName := L "Cam C",
     width := 1024, height := 768, enabled := false }]

/-! ## Sample data for the lifecycle manager -/

/-- The definition the lifecycle manager loads for a node `id` without attributes. -/
def sampleInfo (id : WString) : WinCamHTTP.CameraInfo := WinCamHTTP.readCamera (bareNode id)

/-- The register call made for a definition. -/
def createCallOf (camera : WinCamHTTP.CameraInfo) : WinCamHTTP.ExternalCall :=
  WinCamHTTP.ExternalCall.MFCreateVirtualCamera camera.id camera.friendlyName camera.clsid

/-- The `HRESULT` `E_FAIL`, used as the status of a failing external call. -/
def E_FAIL : Nat := 0x80004005

/-- External calls that all succeed, except the register call at position `k`. -/
def createFailsAt (k : Nat) : WinCamHTTP.Outcomes :=
  { create := fun i => if i = k then E_FAIL else S_OK,
    start := fun _ => S_OK,
    remove := fun _ => S_OK }

/-- External calls that all succeed. -/
def allSucceed : WinCamHTTP.Outcomes :=
  { create := fun _ => S_OK, start := fun _ => S_OK, remove := fun _ => S_OK }

/-- Spec: one stop call for each definition, in order. -/
def specRemoveAll (cameras : List WinCamHTTP.CameraInfo) : List WinCamHTTP.ExternalCall :=
  cameras.map (fun camera => WinCamHTTP.ExternalCall.Remove camera.id)

/-- External calls that all succeed, except the stop call at position `k`. -/
def removeFailsAt (k : Nat) : WinCamHTTP.Outcomes :=
  { create := fun _ => S_OK,
    start := fun _ => S_OK,
    remove := fun i => if i = k then E_FAIL else S_OK }

/-! # Theorems -/

/-! ## Arithmetic of the hash bytes -/

theorem setHashBytes_base (hash : Nat) :
    setHashBytes CLSID_VCamBase hash =
      { CLSID_VCamBase with
        Data4 := CLSID_VCamBase.Data4.take 4 ++ specLittleEndian32 hash } := by
  have h0 : hash &&& 0xFF = hash % 256 := Nat.and_pow_two_sub_one_eq_mod hash 8
  have h1 : (hash >>> 8) &&& 0xFF = hash / 256 % 256 := by
    rw [Nat.shiftRight_eq_div_pow]; exact Nat.and_pow_two_sub_one_eq_mod _ 8
  have h2 : (hash >>> 16) &&& 0xFF = hash / 65536 % 256 := by
    rw [Nat.shiftRight_eq_div_pow]; exact Nat.and_pow_two_sub_one_eq_mod _ 8
  have h3 : (hash >>> 24) &&& 0xFF = hash / 16777216 % 256 := by
    rw [Nat.shiftRight_eq_div_pow]; exact Nat.and_pow_two_sub_one_eq_mod _ 8
  simp only [setHashBytes, h0, h1, h2, h3]
  rfl

theorem manager_hashLoop_eq_foldl (cameraId : WString) (hash : Nat) :
    WinCamHTTP.hashLoop cameraId hash =
      cameraId.foldl (fun h c => (h * 31 + c) % 2 ^ 32) hash := by
  induction cameraId generalizing hash with
  | nil => rfl
  | cons c rest ih => simp only [WinCamHTTP.hashLoop, List.foldl_cons, ih]; rfl

theorem editor_hashLoop_eq_manager (cameraId : WString) (hash : Nat) :
    VCamSample.hashLoop cameraId hash = WinCamHTTP.hashLoop cameraId hash := by
  induction cameraId generalizing hash with
  | nil => rfl
  | cons c rest ih => simp only [VCamSample.hashLoop, WinCamHTTP.hashLoop, ih]

theorem dll_hashLoop_eq_manager (buffer : List Nat) (hash : Nat) :
    VCamSampleSource.hashLoop buffer hash =
      WinCamHTTP.hashLoop (wstringOfBuffer buffer) hash := by
  induction buffer generalizing hash with
  | nil => rfl
  | cons c rest ih =>
    by_cases hc : c = 0
    · simp [VCamSampleSource.hashLoop, wstringOfBuffer, WinCamHTTP.hashLoop, hc]
    · simp [VCamSampleSource.hashLoop, wstringOfBuffer, WinCamHTTP.hashLoop, hc, ih]

theorem wstringOfBuffer_append_nul (s : WString) (h : 0 ∉ s) (rest : List Nat) :
    wstringOfBuffer (s ++ 0 :: rest) = s := by
  induction s with
  | nil => simp [wstringOfBuffer]
  | cons c tl ih =>
    have hc : c ≠ 0 := fun e => h (by simp [e])
    have htl : 0 ∉ tl := fun e => h (by simp [e])
    simp [wstringOfBuffer, hc, ih htl]

theorem wstringOfBuffer_c_str (s : WString) (h : 0 ∉ s) : wstringOfBuffer (c_str s) = s := by
  unfold c_str; exact wstringOfBuffer_append_nul s h []

theorem manager_clsid_eq (cameraId : WString) :
    WinCamHTTP.GenerateCameraClsid cameraId =
      { CLSID_VCamBase with
        Data4 := CLSID_VCamBase.Data4.take 4 ++
          specLittleEndian32 (specRollingHash cameraId) } := by
  have e : specRollingHash cameraId = WinCamHTTP.hashLoop cameraId 0 :=
    (manager_hashLoop_eq_foldl cameraId 0).symm
  rw [e]
  exact setHashBytes_base (WinCamHTTP.hashLoop cameraId 0)

theorem dll_clsid_eq_manager (buffer : List Nat) :
    VCamSampleSource.GenerateCameraClsid buffer =
      WinCamHTTP.GenerateCameraClsid (wstringOfBuffer buffer) := by
  simp only [VCamSampleSource.GenerateCameraClsid, WinCamHTTP.GenerateCameraClsid,
    dll_hashLoop_eq_manager]
  rfl

theorem editor_clsid_eq_manager (cameraId : WString) :
    VCamSample.GenerateCameraClsidString_clsid cameraId =
      WinCamHTTP.GenerateCameraClsid cameraId := by
  simp only [VCamSample.GenerateCameraClsidString_clsid, WinCamHTTP.GenerateCameraClsid,
    editor_hashLoop_eq_manager]

/-! ## C1, C2: identity derivation -/

/-- C1: for every id, the lifecycle manager's `GenerateCameraClsid` is the base constant
with `Data4[4..7]`, its last four bytes, replaced by the little-endian bytes of the
rolling hash `h := (h*31 + codeUnit) mod 2^32` folded from 0 over the code units of
the id; the DLL's `GenerateCameraClsid` is the same value for the id its
NUL-terminated argument holds; the first twelve bytes are those of the base
constant.  Both are functions, hence total and pure. -/
theorem C1_generateCameraClsid_spec (cameraId : WString) (buffer : List Nat) :
    (WinCamHTTP.GenerateCameraClsid cameraId).bytes = specDeriveIdentityBytes cameraId ∧
    (WinCamHTTP.GenerateCameraClsid cameraId).bytes.take 12 = CLSID_VCamBase.bytes.take 12 ∧
    (WinCamHTTP.GenerateCameraClsid cameraId).bytes.drop 12 =
      specLittleEndian32 (specRollingHash cameraId) ∧
    (VCamSampleSource.GenerateCameraClsid buffer).bytes =
      specDeriveIdentityBytes (wstringOfBuffer buffer) ∧
    (VCamSampleSource.GenerateCameraClsid buffer).bytes.take 12 =
      CLSID_VCamBase.bytes.take 12 ∧
    (VCamSampleSource.GenerateCameraClsid buffer).bytes.drop 12 =
      specLittleEndian32 (specRollingHash (wstringOfBuffer buffer)) := by
  have key : ∀ s : WString,
      (WinCamHTTP.GenerateCameraClsid s).bytes = specDeriveIdentityBytes s ∧
      (WinCamHTTP.GenerateCameraClsid s).bytes.take 12 = CLSID_VCamBase.bytes.take 12 ∧
      (WinCamHTTP.GenerateCameraClsid s).bytes.drop 12 =
        specLittleEndian32 (specRollingHash s) := by
    intro s
    rw [manager_clsid_eq]
    refine ⟨rfl, rfl, rfl⟩
  refine ⟨(key cameraId).1, (key cameraId).2.1, (key cameraId).2.2, ?_, ?_, ?_⟩
  · rw [dll_clsid_eq_manager]; exact (key _).1
  · rw [dll_clsid_eq_manager]; exact (key _).2.1
  · rw [dll_clsid_eq_manager]; exact (key _).2.2

/-- C2: the three derivations agree.  For every NUL-terminated buffer the activation
DLL's `GenerateCameraClsid` can be given, its value is the lifecycle manager's
`GenerateCameraClsid` and the GUID inside the editor's `GenerateCameraClsidString` for
the id that buffer holds, as values and byte for byte; for every `std::wstring` the
manager's and the editor's values are equal, and the editor's text is the formatting
of that value. -/
theorem C2_derivations_agree (buffer : List Nat) (cameraId : WString) :
    VCamSampleSource.GenerateCameraClsid buffer =
      WinCamHTTP.GenerateCameraClsid (wstringOfBuffer buffer) ∧
    VCamSample.GenerateCameraClsidString_clsid (wstringOfBuffer buffer) =
      WinCamHTTP.GenerateCameraClsid (wstringOfBuffer buffer) ∧
    (VCamSampleSource.GenerateCameraClsid buffer).bytes =
      (WinCamHTTP.GenerateCameraClsid (wstringOfBuffer buffer)).bytes ∧
    (VCamSampleSource.GenerateCameraClsid buffer).bytes =
      (VCamSample.GenerateCameraClsidString_clsid (wstringOfBuffer buffer)).bytes ∧
    VCamSample.GenerateCameraClsidString_clsid cameraId =
      WinCamHTTP.GenerateCameraClsid cameraId ∧
    (VCamSample.GenerateCameraClsidString_clsid cameraId).bytes =
      (WinCamHTTP.GenerateCameraClsid cameraId).bytes ∧
    VCamSample.GenerateCameraClsidString cameraId =
      VCamSample.formatClsid (WinCamHTTP.GenerateCameraClsid cameraId) := by
  have hdll := dll_clsid_eq_manager buffer
  have hed := editor_clsid_eq_manager (wstringOfBuffer buffer)
  have hed2 := editor_clsid_eq_manager cameraId
  refine ⟨hdll, hed, by rw [hdll], by rw [hdll, hed], hed2, by rw [hed2], ?_⟩
  unfold VCamSample.GenerateCameraClsidString
  rw [hed2]

/-! ## C3: the lowest unused `CameraN` -/

/-- Reading a decimal numeral back: the value of a sequence of digit code units. -/
theorem to_wstringAux_value (fuel n : Nat) (acc : WString) (h : n < fuel) :
    (VCamSample.to_wstringAux fuel n acc).foldl (fun a d => a * 10 + (d - 48)) 0 =
      acc.foldl (fun a d => a * 10 + (d - 48)) n := by
  induction fuel generalizing n acc with
  | zero => omega
  | succ fuel ih =>
    unfold VCamSample.to_wstringAux
    by_cases hn : n < 10
    · simp [hn]
    · simp only [hn, if_false]
      rw [ih (n / 10) _ (by omega)]
      simp only [List.foldl_cons]
      congr 1
      omega

theorem to_wstring_value (n : Nat) :
    (VCamSample.to_wstring n).foldl (fun a d => a * 10 + (d - 48)) 0 = n := by
  unfold VCamSample.to_wstring
  rw [to_wstringAux_value (n + 1) n [] (by omega)]
  rfl

theorem to_wstring_injective : Function.Injective VCamSample.to_wstring := by
  intro a b hab
  have h := congrArg (fun l : WString => l.foldl (fun a d => a * 10 + (d - 48)) 0) hab
  simpa only [to_wstring_value] using h

theorem candidate_injective :
    Function.Injective (fun n : Nat => L "Camera" ++ VCamSample.to_wstring n) := by
  intro a b hab
  exact to_wstring_injective (List.append_cancel_left hab)

theorem idExists_iff (cameras : List VCamSample.CameraConfig) (id : WString) :
    VCamSample.idExists cameras id = true ↔ id ∈ cameras.map (fun camera => camera.id) := by
  induction cameras with
  | nil => simp [VCamSample.idExists]
  | cons camera rest ih =>
    by_cases h : camera.id = id
    · simp [VCamSample.idExists, h]
    · have h2 : ¬ id = camera.id := fun e => h e.symm
      simp [VCamSample.idExists, h, h2, ih]

/-- Pigeonhole: among the first `length + 1` candidates one is not an existing id. -/
theorem exists_unused_candidate (cameras : List VCamSample.CameraConfig) :
    ∃ N, 1 ≤ N ∧ N ≤ cameras.length + 1 ∧
      (L "Camera" ++ VCamSample.to_wstring N) ∉ cameras.map (fun camera => camera.id) := by
  by_contra hno
  push_neg at hno
  let cands : List WString :=
    (List.range (cameras.length + 1)).map (fun i => L "Camera" ++ VCamSample.to_wstring (i + 1))
  have hnodup : cands.Nodup := by
    refine (List.nodup_range _).map ?_
    intro a b hab
    have := candidate_injective hab
    omega
  have hsub : cands ⊆ cameras.map (fun camera => camera.id) := by
    intro x hx
    obtain ⟨i, hi, rfl⟩ := List.mem_map.1 hx
    have hi2 := List.mem_range.1 hi
    exact hno (i + 1) (by omega) (by omega)
  have hlen := (List.subperm_of_subset hnodup hsub).length_le
  simp [cands] at hlen

/-- The loop returns the first unused candidate at or after `counter`. -/
theorem generateUniqueCameraIdLoop_eq (cameras : List VCamSample.CameraConfig)
    (fuel counter N : Nat) (hle : counter ≤ N) (hfuel : N - counter < fuel)
    (hfree : (L "Camera" ++ VCamSample.to_wstring N) ∉ cameras.map (fun camera => camera.id))
    (hused : ∀ M, counter ≤ M → M < N →
      (L "Camera" ++ VCamSample.to_wstring M) ∈ cameras.map (fun camera => camera.id)) :
    VCamSample.GenerateUniqueCameraIdLoop cameras fuel counter =
      some (L "Camera" ++ VCamSample.to_wstring N) := by
  induction fuel generalizing counter with
  | zero => omega
  | succ fuel ih =>
    unfold VCamSample.GenerateUniqueCameraIdLoop
    by_cases hc : counter = N
    · subst hc
      have : VCamSample.idExists cameras (L "Camera" ++ VCamSample.to_wstring counter) = false := by
        rw [Bool.eq_false_iff]; intro h; exact hfree ((idExists_iff _ _).1 h)
      simp [this]
    · have hlt : counter < N := by omega
      have : VCamSample.idExists cameras (L "Camera" ++ VCamSample.to_wstring counter) = true :=
        (idExists_iff _ _).2 (hused counter (le_refl _) hlt)
      simp only [this, Bool.not_true, Bool.false_eq_true, if_false]
      exact ih (counter + 1) (by omega) (by omega) (fun M h1 h2 => hused M (by omega) h2)

/-- C3: for every list of existing cameras, `GenerateUniqueCameraId` (its loop given
room for `length + 1` candidates or more) returns `Camera` followed by the decimal
form of `N`, where `N` is the least integer `N >= 1` such that `Camera`+`N` is not an
existing id; the result is not an existing id; for the existing ids `Camera1`,
`Camera3` the result is `Camera2`. -/
theorem C3_generateUniqueCameraId_least :
    (∀ cameras : List VCamSample.CameraConfig, ∃ N, 1 ≤ N ∧ N ≤ cameras.length + 1 ∧
      (∀ extra, VCamSample.GenerateUniqueCameraId cameras (cameras.length + 1 + extra) =
        some (L "Camera" ++ VCamSample.to_wstring N)) ∧
      (VCamSample.to_wstring N).foldl (fun a d => a * 10 + (d - 48)) 0 = N ∧
      (L "Camera" ++ VCamSample.to_wstring N) ∉ cameras.map (fun camera => camera.id) ∧
      (∀ M, 1 ≤ M → M < N →
        (L "Camera" ++ VCamSample.to_wstring M) ∈ cameras.map (fun camera => camera.id))) ∧
    VCamSample.GenerateUniqueCameraId
      [{ id := L "Camera1", url := [], friendlyName := [], width := 640, height := 480,
         enabled := true },
       { id := L "Camera3", url := [], friendlyName := [], width := 640, height := 480,
         enabled := true }] 3 = some (L "Camera2") := by
  refine ⟨?_, by decide⟩
  intro cameras
  classical
  have hex : ∃ N, 1 ≤ N ∧ N ≤ cameras.length + 1 ∧
      (L "Camera" ++ VCamSample.to_wstring N) ∉ cameras.map (fun camera => camera.id) :=
    exists_unused_candidate cameras
  obtain ⟨h1, h2, h3⟩ := Nat.find_spec hex
  refine ⟨Nat.find hex, h1, h2, ?_, to_wstring_value _, h3, ?_⟩
  · intro extra
    refine generateUniqueCameraIdLoop_eq cameras _ 1 _ h1 (by omega) h3 ?_
    intro M hM1 hM2
    by_contra hM
    exact Nat.find_min hex hM2 ⟨hM1, by omega, hM⟩
  · intro M hM1 hM2
    by_contra hM
    exact Nat.find_min hex hM2 ⟨hM1, by omega, hM⟩

/-! ## The registration index -/

theorem find_assign (m : CameraMap) (k : GUID) (v : WString) (key : GUID) :
    StdMap.find (StdMap.assign m k v) key = if k = key then some v else StdMap.find m key := by
  induction m with
  | nil => simp [StdMap.assign, StdMap.find]
  | cons e rest ih =>
    obtain ⟨k0, v0⟩ := e
    by_cases h0 : k0 = k
    · subst h0
      by_cases h1 : k0 = key <;> simp [StdMap.assign, StdMap.find, h1]
    · by_cases h1 : k0 = key
      · subst h1
        have h2 : ¬ k = k0 := fun e => h0 e.symm
        simp [StdMap.assign, StdMap.find, h0, h2]
      · simp [StdMap.assign, StdMap.find, h0, h1, ih]

theorem assign_ne_nil (m : CameraMap) (k : GUID) (v : WString) : StdMap.assign m k v ≠ [] := by
  cases m with
  | nil => simp [StdMap.assign]
  | cons e rest =>
    obtain ⟨k0, v0⟩ := e
    by_cases h0 : k0 = k <;> simp [StdMap.assign, h0]

theorem enumLoop_ne_nil (nodes : List RegNode) (m : CameraMap) (h : m ≠ []) :
    VCamSampleSource.enumLoop nodes m ≠ [] := by
  induction nodes generalizing m with
  | nil => simpa [VCamSampleSource.enumLoop] using h
  | cons n rest ih =>
    simp only [VCamSampleSource.enumLoop]
    exact ih _ (assign_ne_nil _ _ _)

theorem find_enumLoop_of_no_node (nodes : List RegNode) (m : CameraMap) (key : GUID)
    (h : ∀ n ∈ nodes, VCamSampleSource.GenerateCameraClsid (c_str n.name) ≠ key) :
    StdMap.find (VCamSampleSource.enumLoop nodes m) key = StdMap.find m key := by
  induction nodes generalizing m with
  | nil => rfl
  | cons n rest ih =>
    simp only [VCamSampleSource.enumLoop]
    rw [ih _ (fun p hp => h p (List.mem_cons_of_mem _ hp)), find_assign]
    have hn := h n (List.mem_cons_self _ _)
    simp [GUID_ToStringW, hn]

/-- The entry of an identity is the one written for the last node that has it. -/
theorem find_enumLoop_of_node (nodes : List RegNode) (m : CameraMap) (key : GUID)
    (h : ∃ n ∈ nodes, VCamSampleSource.GenerateCameraClsid (c_str n.name) = key) :
    ∃ n ∈ nodes, VCamSampleSource.GenerateCameraClsid (c_str n.name) = key ∧
      StdMap.find (VCamSampleSource.enumLoop nodes m) key =
        some (wstringOfBuffer (c_str n.name)) := by
  induction nodes generalizing m with
  | nil => obtain ⟨n, hn, _⟩ := h; simp at hn
  | cons n rest ih =>
    simp only [VCamSampleSource.enumLoop]
    by_cases hrest : ∃ p ∈ rest, VCamSampleSource.GenerateCameraClsid (c_str p.name) = key
    · obtain ⟨p, hp, hk, hf⟩ := ih (StdMap.assign m
        (GUID_ToStringW (VCamSampleSource.GenerateCameraClsid (c_str n.name)))
        (wstringOfBuffer (c_str n.name))) hrest
      exact ⟨p, List.mem_cons_of_mem _ hp, hk, hf⟩
    · push_neg at hrest
      obtain ⟨q, hq, hqk⟩ := h
      have hn : VCamSampleSource.GenerateCameraClsid (c_str n.name) = key := by
        rcases List.mem_cons.1 hq with e | e
        · rw [← e]; exact hqk
        · exact absurd hqk (hrest q e)
      refine ⟨n, List.mem_cons_self _ _, hn, ?_⟩
      rw [find_enumLoop_of_no_node rest _ key hrest, find_assign]
      simp [GUID_ToStringW, hn]

theorem loadCameraRegistrations_default (store : Store) (m : CameraMap)
    (h : store.status ≠ ERROR_SUCCESS ∨ store.nodes = []) :
    VCamSampleSource.LoadCameraRegistrations store m =
      [(GUID_ToStringW CLSID_VCamBase, L "Camera1")] := by
  unfold VCamSampleSource.LoadCameraRegistrations
  by_cases hs : store.status = ERROR_SUCCESS
  · rcases h with h | h
    · exact absurd hs h
    · simp [hs, h, VCamSampleSource.enumLoop, StdMap.clear, StdMap.empty, StdMap.assign]
  · simp [hs, StdMap.clear, StdMap.assign]

theorem loadCameraRegistrations_nodes (store : Store) (m : CameraMap)
    (hs : store.status = ERROR_SUCCESS) (hn : store.nodes ≠ []) :
    VCamSampleSource.LoadCameraRegistrations store m =
      VCamSampleSource.enumLoop store.nodes [] := by
  unfold VCamSampleSource.LoadCameraRegistrations
  have hne : VCamSampleSource.enumLoop store.nodes [] ≠ [] := by
    cases hnodes : store.nodes with
    | nil => exact absurd hnodes hn
    | cons n rest =>
      simp only [VCamSampleSource.enumLoop]
      exact enumLoop_ne_nil _ _ (assign_ne_nil _ _ _)
  have hemp : StdMap.empty (VCamSampleSource.enumLoop store.nodes []) = false := by
    unfold StdMap.empty
    cases hx : VCamSampleSource.enumLoop store.nodes [] with
    | nil => exact absurd hx hne
    | cons a b => rfl
  simp [hs, StdMap.clear, hemp]

/-- C6: when the store cannot be opened or has no camera node,
`LoadCameraRegistrations` leaves the index with exactly one entry, base constant to
`Camera1`, whatever the index held before; and after every call, whatever the store
holds, the index is not empty. -/
theorem C6_loadCameraRegistrations_never_empty (store : Store) (g_cameraMap : CameraMap) :
    (store.status ≠ ERROR_SUCCESS ∨ store.nodes = [] →
      VCamSampleSource.LoadCameraRegistrations store g_cameraMap =
        [(GUID_ToStringW CLSID_VCamBase, L "Camera1")]) ∧
    VCamSampleSource.LoadCameraRegistrations store g_cameraMap ≠ [] ∧
    StdMap.empty (VCamSampleSource.LoadCameraRegistrations store g_cameraMap) = false := by
  have hne : VCamSampleSource.LoadCameraRegistrations store g_cameraMap ≠ [] := by
    by_cases h : store.status ≠ ERROR_SUCCESS ∨ store.nodes = []
    · rw [loadCameraRegistrations_default store g_cameraMap h]; simp
    · push_neg at h
      rw [loadCameraRegistrations_nodes store g_cameraMap h.1 h.2]
      cases hnodes : store.nodes with
      | nil => exact absurd hnodes h.2
      | cons n rest =>
        simp only [VCamSampleSource.enumLoop]
        exact enumLoop_ne_nil _ _ (assign_ne_nil _ _ _)
  refine ⟨loadCameraRegistrations_default store g_cameraMap, hne, ?_⟩
  unfold StdMap.empty
  cases hx : VCamSampleSource.LoadCameraRegistrations store g_cameraMap with
  | nil => exact absurd hx hne
  | cons a b => rfl

/-- Witness of C6: an unreadable store, an empty store and a store with one camera,
each loaded over a stale index. -/
theorem C6_loadCameraRegistrations_witness :
    VCamSampleSource.LoadCameraRegistrations { status := 5, nodes := [bareNode (L "Camera7")] }
        [(CLSID_VCamBase, L "Old")] = [(GUID_ToStringW CLSID_VCamBase, L "Camera1")] ∧
    VCamSampleSource.LoadCameraRegistrations { status := 0, nodes := [] }
        [(CLSID_VCamBase, L "Old")] = [(GUID_ToStringW CLSID_VCamBase, L "Camera1")] ∧
    VCamSampleSource.LoadCameraRegistrations { status := 0, nodes := [bareNode (L "Camera7")] }
        [(CLSID_VCamBase, L "Old")] ≠ [] :=
  ⟨(C6_loadCameraRegistrations_never_empty _ _).1 (Or.inl (by decide)),
   (C6_loadCameraRegistrations_never_empty _ _).1 (Or.inr rfl),
   (C6_loadCameraRegistrations_never_empty _ _).2.1⟩

/-! ## C4, C5: resolving an identity -/

/-- C4 (as stated, refuted): (1) the store holds the ids `Aa` and `BB`, whose derived
identities coincide, and the index is empty: resolving the identity derived from
`Aa` returns `BB`; (2) the index was built while the store held `BB` only, the store
now holds `Aa` only: resolving the identity derived from `Aa` still returns `BB`. -/
theorem C4_counterexample_collision :
    (VCamSampleSource.GetCameraIdForClsid
        { status := 0, nodes := [bareNode (L "Aa"), bareNode (L "BB")] }
        (VCamSampleSource.GenerateCameraClsid (c_str (L "Aa"))) []).1 ≠ L "Aa" ∧
    (VCamSampleSource.GetCameraIdForClsid
        { status := 0, nodes := [bareNode (L "Aa")] }
        (VCamSampleSource.GenerateCameraClsid (c_str (L "Aa")))
        (VCamSampleSource.LoadCameraRegistrations
          { status := 0, nodes := [bareNode (L "BB")] } [])).1 ≠ L "Aa" := by
  decide

/-- C4 (amended): for every store that can be opened, every id present in it whose
derived identity no other id of the store shares, and every prior index that holds
no entry for that identity other than one for the id itself, resolving the identity
derived from the id returns the id. -/
theorem C4_resolve_present_id (store : Store) (g_cameraMap : CameraMap) (id : WString)
    (hwf : store.WellFormed) (hopen : store.status = ERROR_SUCCESS)
    (hid : id ∈ store.ids)
    (hunique : ∀ other ∈ store.ids,
      VCamSampleSource.GenerateCameraClsid (c_str other) =
        VCamSampleSource.GenerateCameraClsid (c_str id) → other = id)
    (hindex : ∀ v, StdMap.find g_cameraMap
      (GUID_ToStringW (VCamSampleSource.GenerateCameraClsid (c_str id))) = some v → v = id) :
    (VCamSampleSource.GetCameraIdForClsid store
      (VCamSampleSource.GenerateCameraClsid (c_str id)) g_cameraMap).1 = id := by
  cases hfind : StdMap.find g_cameraMap
      (GUID_ToStringW (VCamSampleSource.GenerateCameraClsid (c_str id))) with
  | some v =>
    simp only [VCamSampleSource.GetCameraIdForClsid, hfind]
    exact hindex v hfind
  | none =>
    obtain ⟨n0, hn0, hname⟩ := List.mem_map.1 hid
    have hne : store.nodes ≠ [] := List.ne_nil_of_mem hn0
    obtain ⟨n, hn, hk, hf⟩ := find_enumLoop_of_node store.nodes []
      (VCamSampleSource.GenerateCameraClsid (c_str id)) ⟨n0, hn0, by rw [hname]⟩
    have hnid : n.name = id := hunique n.name (List.mem_map.2 ⟨n, hn, rfl⟩) hk
    have hnul : (0 : Nat) ∉ n.name := (hwf.1 n hn).1
    have hf2 : StdMap.find (VCamSampleSource.LoadCameraRegistrations store g_cameraMap)
        (GUID_ToStringW (VCamSampleSource.GenerateCameraClsid (c_str id))) = some id := by
      rw [loadCameraRegistrations_nodes store g_cameraMap hopen hne]
      simp only [GUID_ToStringW, hf]
      rw [wstringOfBuffer_c_str _ hnul, hnid]
    simp only [VCamSampleSource.GetCameraIdForClsid, hfind, hf2]

/-- Witness of C4 (amended): the store holds `Camera1` and `Camera2`, the index is
empty, the id is `Camera2`. -/
theorem C4_resolve_present_id_witness :
    (VCamSampleSource.GetCameraIdForClsid
      { status := 0, nodes := [bareNode (L "Camera1"), bareNode (L "Camera2")] }
      (VCamSampleSource.GenerateCameraClsid (c_str (L "Camera2"))) []).1 = L "Camera2" :=
  C4_resolve_present_id
    { status := 0, nodes := [bareNode (L "Camera1"), bareNode (L "Camera2")] } []
    (L "Camera2") (by decide) rfl (by decide) (by decide) (by decide)

/-- C5 (as stated, refuted): the index was built while the store held `Camera2`; the
store now holds `Camera1` only, so the identity derived from `Camera2` is the
identity of no id in the store; resolving it returns `Camera2`, not `Camera1`. -/
theorem C5_counterexample_stale_index :
    (∀ n ∈ [bareNode (L "Camera1")],
      VCamSampleSource.GenerateCameraClsid (c_str n.name) ≠
        VCamSampleSource.GenerateCameraClsid (c_str (L "Camera2"))) ∧
    (VCamSampleSource.GetCameraIdForClsid
        { status := 0, nodes := [bareNode (L "Camera1")] }
        (VCamSampleSource.GenerateCameraClsid (c_str (L "Camera2")))
        (VCamSampleSource.LoadCameraRegistrations
          { status := 0, nodes := [bareNode (L "Camera2")] } [])).1 ≠ L "Camera1" := by
  decide

/-- C5 (amended): for every store content, every identity that is not the derived
identity of any id in the store, and every prior index that holds no entry for that
identity, `GetCameraIdForClsid` returns the default id `Camera1`. -/
theorem C5_resolve_unknown_identity (store : Store) (g_cameraMap : CameraMap) (clsid : GUID)
    (hstore : ∀ n ∈ store.nodes, VCamSampleSource.GenerateCameraClsid (c_str n.name) ≠ clsid)
    (hindex : StdMap.find g_cameraMap (GUID_ToStringW clsid) = none) :
    (VCamSampleSource.GetCameraIdForClsid store clsid g_cameraMap).1 = L "Camera1" := by
  simp only [VCamSampleSource.GetCameraIdForClsid, hindex]
  by_cases h : store.status ≠ ERROR_SUCCESS ∨ store.nodes = []
  · rw [loadCameraRegistrations_default store g_cameraMap h]
    by_cases hb : GUID_ToStringW CLSID_VCamBase = GUID_ToStringW clsid <;>
      simp [StdMap.find, hb]
  · push_neg at h
    rw [loadCameraRegistrations_nodes store g_cameraMap h.1 h.2,
      find_enumLoop_of_no_node store.nodes [] (GUID_ToStringW clsid) hstore]
    simp [StdMap.find]

/-- Witness of C5 (amended): the store holds `Camera2`, the index is empty, the
identity is the one derived from `Camera9`. -/
theorem C5_resolve_unknown_identity_witness :
    (VCamSampleSource.GetCameraIdForClsid
      { status := 0, nodes := [bareNode (L "Camera2")] }
      (VCamSampleSource.GenerateCameraClsid (c_str (L "Camera9"))) []).1 = L "Camera1" :=
  C5_resolve_unknown_identity { status := 0, nodes := [bareNode (L "Camera2")] } []
    (VCamSampleSource.GenerateCameraClsid (c_str (L "Camera9"))) (by decide) rfl

/-! ## The editor and the store -/

theorem editor_loadLoop_eq (nodes : List RegNode) (acc : List VCamSample.CameraConfig) :
    VCamSample.loadLoop nodes acc =
      acc ++ (nodes.filter (fun n => n.readable)).map VCamSample.readCamera := by
  induction nodes generalizing acc with
  | nil => simp [VCamSample.loadLoop]
  | cons n rest ih =>
    by_cases hr : n.readable = true
    · simp [VCamSample.loadLoop, hr, ih]
    · simp [VCamSample.loadLoop, hr, ih]

theorem manager_loadLoop_eq (nodes : List RegNode) (acc : List WinCamHTTP.CameraInfo) :
    WinCamHTTP.loadLoop nodes acc =
      acc ++ (nodes.filter (fun n => n.readable)).map WinCamHTTP.readCamera := by
  induction nodes generalizing acc with
  | nil => simp [WinCamHTTP.loadLoop]
  | cons n rest ih =>
    by_cases hr : n.readable = true
    · simp [WinCamHTTP.loadLoop, hr, ih]
    · simp [WinCamHTTP.loadLoop, hr, ih]

theorem regQuery_string_fits (data : WString) (bufferUnits : Nat) (hlen : data.length < bufferUnits)
    (hnul : 0 ∉ data) : RegQueryValueExW_string (some data) bufferUnits = some data := by
  have h : data.length + 1 ≤ bufferUnits := hlen
  simp [RegQueryValueExW_string, h, wstringOfBuffer_c_str data hnul]

theorem regQuery_string_too_long (data : WString) (bufferUnits : Nat)
    (hlen : bufferUnits ≤ data.length) : RegQueryValueExW_string (some data) bufferUnits = none := by
  have h : ¬ data.length + 1 ≤ bufferUnits := by omega
  simp [RegQueryValueExW_string, h]

set_option maxRecDepth 20000 in
/-- C9 (as stated, refuted): a node whose `FriendlyName` attribute is present and holds
256 code units is loaded with the default friendly name, not with the stored value;
a node that cannot be opened gets no definition at all; a stored `URL` with an
embedded NUL is loaded cut at the NUL. -/
theorem C9_counterexample_long_friendly_name :
    (VCamSample.LoadCamerasFromRegistry
      { status := 0, nodes := [{ bareNode (L "Camera1") with
          FriendlyName := some (List.replicate 256 65) }] } []).2 =
      [{ id := L "Camera1", url := [], friendlyName := L "WinCamHTTP Virtual Camera Camera1",
         width := 640, height := 480, enabled := true }] ∧
    (VCamSample.LoadCamerasFromRegistry
      { status := 0, nodes := [{ bareNode (L "Camera1") with readable := false }] } []).2 = [] ∧
    (VCamSample.LoadCamerasFromRegistry
      { status := 0, nodes := [{ bareNode (L "Camera1") with URL := some [97, 0, 98] }] } []).2 =
      [{ id := L "Camera1", url := [97], friendlyName := L "WinCamHTTP Virtual Camera Camera1",
         width := 640, height := 480, enabled := true }] := by
  decide

theorem regQuery_dword_spec (stored : Option Nat) (default : Nat) :
    specDwordAttribute stored default (RegQueryValueExW_dword stored default).1 := by
  refine ⟨?_, ?_⟩
  · intro h; subst h; rfl
  · intro v h; subst h; rfl

theorem wstringOfBuffer_c_str_eq_takeWhile (s : WString) :
    wstringOfBuffer (c_str s) = s.takeWhile (fun c => c ≠ 0) := by
  induction s with
  | nil => simp [c_str, wstringOfBuffer]
  | cons c tl ih =>
    by_cases hc : c = 0
    · simp [c_str, wstringOfBuffer, hc]
    · have ih2 : wstringOfBuffer (tl ++ [0]) = tl.takeWhile (fun c => c ≠ 0) := ih
      simp [c_str, wstringOfBuffer, hc, ih2, List.takeWhile_cons]

theorem regQuery_string_spec (stored : Option WString) (bufferUnits : Nat) (default : WString) :
    specStringAttribute stored bufferUnits default
      (match RegQueryValueExW_string stored bufferUnits with
        | some s => s
        | none => default) := by
  refine ⟨?_, ?_, ?_, ?_⟩
  · intro h; subst h; rfl
  · intro s h hlen hnul; subst h; rw [regQuery_string_fits s bufferUnits hlen hnul]
  · intro s h hlen; subst h
    have hfit : s.length + 1 ≤ bufferUnits := hlen
    simp only [RegQueryValueExW_string, hfit, if_true]
    exact wstringOfBuffer_c_str_eq_takeWhile s
  · intro s h hlen; subst h; rw [regQuery_string_too_long s bufferUnits hlen]

theorem editor_readCamera_spec (n : RegNode) (hnul : 0 ∉ n.name) :
    specLoadedDefinition n (VCamSample.readCamera n) := by
  have hid : wstringOfBuffer (c_str n.name) = n.name := wstringOfBuffer_c_str _ hnul
  refine ⟨hid, regQuery_string_spec n.URL 2048 [], regQuery_dword_spec n.Width 640,
    regQuery_dword_spec n.Height 480, ⟨?_, ?_⟩, ?_⟩
  · intro h; simp [VCamSample.readCamera, RegQueryValueExW_dword, h]
  · intro v h; simp [VCamSample.readCamera, RegQueryValueExW_dword, h]
  · have h := regQuery_string_spec n.FriendlyName 256 (specDefaultFriendlyName n.name)
    simpa only [VCamSample.readCamera, hid, specDefaultFriendlyName] using h

theorem manager_readCamera_spec (n : RegNode) (hnul : 0 ∉ n.name) :
    specLoadedInfo n (WinCamHTTP.readCamera n) := by
  have hid : wstringOfBuffer (c_str n.name) = n.name := wstringOfBuffer_c_str _ hnul
  refine ⟨hid, regQuery_string_spec n.URL 2048 [], regQuery_dword_spec n.Width 640,
    regQuery_dword_spec n.Height 480, ?_⟩
  have h := regQuery_string_spec n.FriendlyName 256 (specDefaultFriendlyName n.name)
  simpa only [WinCamHTTP.readCamera, hid, specDefaultFriendlyName] using h

theorem forall₂_map_of_forall {α β : Type} (R : α → β → Prop) (f : α → β) (l : List α)
    (h : ∀ a ∈ l, R a (f a)) : List.Forall₂ R l (l.map f) := by
  induction l with
  | nil => exact List.Forall₂.nil
  | cons a tl ih =>
    exact List.Forall₂.cons (h a (List.mem_cons_self _ _))
      (ih (fun b hb => h b (List.mem_cons_of_mem _ hb)))

/-- C9 (amended): for every store that can be opened, the definitions
`LoadCamerasFromRegistry` returns are, one for one and in the order of enumeration,
those of the nodes that can be opened: each has the id of its node, each missing
attribute has its documented default, each integer attribute its stored value,
`enabled` is whether the stored `Enabled` is non-zero, and each string attribute is
the stored value read up to its first NUL code unit when that value fits the read
buffer (`URL` under 2048 code units, `FriendlyName` under 256) and the default when it
does not.  A node that cannot be opened is skipped: no returned definition has its
id.  The lifecycle manager's `LoadCameraSettingsFromRegistry` does the same for id,
url, width, height and friendly name. -/
theorem C9_load_substitutes_defaults (store : Store) (prior : List VCamSample.CameraConfig)
    (priorInfo : List WinCamHTTP.CameraInfo)
    (hwf : store.WellFormed) (hopen : store.status = ERROR_SUCCESS) :
    List.Forall₂ specLoadedDefinition (store.nodes.filter (fun n => n.readable))
      (VCamSample.LoadCamerasFromRegistry store prior).2 ∧
    List.Forall₂ specLoadedInfo (store.nodes.filter (fun n => n.readable))
      (WinCamHTTP.LoadCameraSettingsFromRegistry store priorInfo).2 ∧
    (∀ n ∈ store.nodes, n.readable = false →
      (∀ camera ∈ (VCamSample.LoadCamerasFromRegistry store prior).2, camera.id ≠ n.name) ∧
      (∀ info ∈ (WinCamHTTP.LoadCameraSettingsFromRegistry store priorInfo).2,
        info.id ≠ n.name)) := by
  have hnul : ∀ n ∈ store.nodes.filter (fun n => n.readable), (0 : Nat) ∉ n.name :=
    fun n hn => (hwf.1 n (List.mem_filter.1 hn).1).1
  have hed : (VCamSample.LoadCamerasFromRegistry store prior).2 =
      (store.nodes.filter (fun n => n.readable)).map VCamSample.readCamera := by
    simp only [VCamSample.LoadCamerasFromRegistry, hopen, ne_eq, not_true_eq_false,
      if_false, editor_loadLoop_eq, List.nil_append]
  have hman : (WinCamHTTP.LoadCameraSettingsFromRegistry store priorInfo).2 =
      (store.nodes.filter (fun n => n.readable)).map WinCamHTTP.readCamera := by
    simp only [WinCamHTTP.LoadCameraSettingsFromRegistry, hopen, ne_eq, not_true_eq_false,
      if_false, manager_loadLoop_eq, List.nil_append]
  have hskip : ∀ n ∈ store.nodes, n.readable = false →
      ∀ m ∈ store.nodes.filter (fun n => n.readable), m.name ≠ n.name := by
    intro n hn hread m hm hname
    obtain ⟨hm1, hm2⟩ := List.mem_filter.1 hm
    have heq : m = n := List.inj_on_of_nodup_map hwf.2 hm1 hn hname
    rw [heq, hread] at hm2
    exact Bool.false_ne_true hm2
  rw [hed, hman]
  refine ⟨forall₂_map_of_forall _ _ _ (fun n hn => editor_readCamera_spec n (hnul n hn)),
    forall₂_map_of_forall _ _ _ (fun n hn => manager_readCamera_spec n (hnul n hn)), ?_⟩
  intro n hn hread
  constructor
  · intro camera hc
    obtain ⟨m, hm, rfl⟩ := List.mem_map.1 hc
    rw [(editor_readCamera_spec m (hnul m hm)).1]
    exact hskip n hn hread m hm
  · intro info hi
    obtain ⟨m, hm, rfl⟩ := List.mem_map.1 hi
    rw [(manager_readCamera_spec m (hnul m hm)).1]
    exact hskip n hn hread m hm

set_option maxRecDepth 20000 in
/-- Witness of C9 (amended): the store `mixedStore`, in which `Camera1` cannot be
opened, `Camera2` holds a `URL` with an embedded NUL and `Camera3` a `FriendlyName`
that does not fit. -/
theorem C9_load_substitutes_defaults_witness :
    (mixedStore.WellFormed ∧ mixedStore.status = ERROR_SUCCESS) ∧
    (List.Forall₂ specLoadedDefinition (mixedStore.nodes.filter (fun n => n.readable))
      (VCamSample.LoadCamerasFromRegistry mixedStore []).2 ∧
    List.Forall₂ specLoadedInfo (mixedStore.nodes.filter (fun n => n.readable))
      (WinCamHTTP.LoadCameraSettingsFromRegistry mixedStore []).2 ∧
    (∀ n ∈ mixedStore.nodes, n.readable = false →
      (∀ camera ∈ (VCamSample.LoadCamerasFromRegistry mixedStore []).2, camera.id ≠ n.name) ∧
      (∀ info ∈ (WinCamHTTP.LoadCameraSettingsFromRegistry mixedStore []).2,
        info.id ≠ n.name))) ∧
    (VCamSample.LoadCamerasFromRegistry mixedStore []).2 =
      [{ id := L "Camera2", url := [97], friendlyName := L "WinCamHTTP Virtual Camera Camera2",
         width := 640, height := 480, enabled := false },
       { id := L "Camera3", url := [], friendlyName := L "WinCamHTTP Virtual Camera Camera3",
         width := 640, height := 480, enabled := true }] :=
  ⟨⟨by decide, rfl⟩, C9_load_substitutes_defaults mixedStore [] [] (by decide) rfl, by decide⟩

/-! ## C8: saving the empty list -/

theorem save_empty (registry : Registry) (store : Store) :
    VCamSample.SaveCamerasToRegistry registry [] store =
      (S_OK, VCamSample.StatusText.allRemoved, RegDeleteTree registry.RegDeleteTree store) := rfl

theorem hresult_from_win32_eq_zero (x : Nat) (h : HRESULT_FROM_WIN32 x = 0) : x = 0 := by
  unfold HRESULT_FROM_WIN32 at h
  split at h
  · rename_i hc
    rcases hc with h0 | h1
    · exact h0
    · omega
  · exfalso
    have hbit := congrArg (fun n => Nat.testBit n 31) h
    have h31 : Nat.testBit 0x80000000 31 = true := by decide
    simp [Nat.testBit_or, h31] at hbit

theorem createKeyAndSetValues_keyName (upcase : Nat → Nat) (camera : VCamSample.CameraConfig)
    (store : Store) (hkey : specKeyName camera.id) :
    VCamSample.createKeyAndSetValues upcase camera store =
      { status := ERROR_SUCCESS,
        nodes := VCamSample.writeNode upcase camera.id camera store.nodes } := by
  obtain ⟨hne, hnul, hbs⟩ := hkey
  have hid : wstringOfBuffer (c_str camera.id) = camera.id := wstringOfBuffer_c_str _ hnul
  have hall : ∀ x ∈ camera.id, x ≠ 92 := fun x hx e => hbs (e ▸ hx)
  have hdrop : camera.id.dropWhile (fun c => decide (c = 92)) = camera.id := by
    cases hc : camera.id with
    | nil => rfl
    | cons a t =>
      have ha : a ≠ 92 := hall a (by rw [hc]; exact List.mem_cons_self _ _)
      simp [List.dropWhile_cons, ha]
  have htake : camera.id.takeWhile (fun c => decide (c ≠ 92)) = camera.id :=
    List.takeWhile_eq_self_iff.2 (fun x hx => by simpa using hall x hx)
  have hdrop2 : camera.id.dropWhile (fun c => decide (c ≠ 92)) = [] :=
    List.dropWhile_eq_nil_iff.2 (fun x hx => by simpa using hall x hx)
  simp only [VCamSample.createKeyAndSetValues, hid, hdrop, htake, hdrop2, hne, if_false,
    List.any_nil, Bool.false_eq_true]

theorem writeNode_fresh (upcase : Nat → Nat) (name : WString) (camera : VCamSample.CameraConfig)
    (nodes : List RegNode) (h : ∀ n ∈ nodes, n.name.map upcase ≠ name.map upcase) :
    VCamSample.writeNode upcase name camera nodes =
      nodes ++ [VCamSample.setValues camera (bareNode name)] := by
  induction nodes with
  | nil => rfl
  | cons n rest ih =>
    have h1 : n.name.map upcase ≠ name.map upcase := h n (List.mem_cons_self _ _)
    have h2 : ∀ m ∈ rest, m.name.map upcase ≠ name.map upcase :=
      fun m hm => h m (List.mem_cons_of_mem _ hm)
    simp [VCamSample.writeNode, h1, ih h2]

theorem nodeOfCamera_keyName (camera : VCamSample.CameraConfig) (hkey : specKeyName camera.id) :
    VCamSample.nodeOfCamera camera = VCamSample.setValues camera (bareNode camera.id) := by
  unfold VCamSample.nodeOfCamera
  rw [wstringOfBuffer_c_str _ hkey.2.1]

theorem nodeOfCamera_name (camera : VCamSample.CameraConfig) (hkey : specKeyName camera.id) :
    (VCamSample.nodeOfCamera camera).name = camera.id := by
  rw [nodeOfCamera_keyName camera hkey]; rfl

/-- The save loop stops with the status and the text of the first create call that
fails; the store is then what the loop made of it for the definitions in front. -/
theorem saveLoop_fails_at (registry : Registry)
    (pre : List VCamSample.CameraConfig) (camera : VCamSample.CameraConfig)
    (post : List VCamSample.CameraConfig) (store : Store)
    (hpre : ∀ p ∈ pre, registry.RegCreateKeyExW (wstringOfBuffer (c_str p.id)) = ERROR_SUCCESS)
    (hfail : registry.RegCreateKeyExW (wstringOfBuffer (c_str camera.id)) ≠ ERROR_SUCCESS) :
    VCamSample.saveLoop registry (pre ++ camera :: post) store =
      (HRESULT_FROM_WIN32 (registry.RegCreateKeyExW (wstringOfBuffer (c_str camera.id))),
       VCamSample.StatusText.failedToSave (wstringOfBuffer (c_str camera.id))
         (registry.RegCreateKeyExW (wstringOfBuffer (c_str camera.id))),
       (VCamSample.saveLoop registry pre store).2.2) := by
  induction pre generalizing store with
  | nil => simp [VCamSample.saveLoop, hfail]
  | cons c rest ih =>
    have hcreate := hpre c (List.mem_cons_self _ _)
    rw [List.cons_append]
    simp only [VCamSample.saveLoop, hcreate, if_true]
    exact ih _ (fun p hp => hpre p (List.mem_cons_of_mem _ hp))

/-- A save loop that returns `S_OK` met no failing create call. -/
theorem saveLoop_creates_of_ok (registry : Registry) (cameras : List VCamSample.CameraConfig)
    (store : Store) (hok : (VCamSample.saveLoop registry cameras store).1 = S_OK) :
    ∀ c ∈ cameras, registry.RegCreateKeyExW (wstringOfBuffer (c_str c.id)) = ERROR_SUCCESS := by
  induction cameras generalizing store with
  | nil => intro c hc; cases hc
  | cons c rest ih =>
    have hcreate : registry.RegCreateKeyExW (wstringOfBuffer (c_str c.id)) = ERROR_SUCCESS := by
      by_contra hne
      simp only [VCamSample.saveLoop, hne, if_false] at hok
      exact hne (hresult_from_win32_eq_zero _ hok)
    simp only [VCamSample.saveLoop, hcreate, if_true] at hok
    intro d hd
    rcases List.mem_cons.1 hd with rfl | hd
    · exact hcreate
    · exact ih _ hok d hd

/-- The save loop over definitions whose ids name one key each, no two the same under
the folding and none that of a node already there, with every create call
succeeding: one node per definition is added, in order. -/
theorem saveLoop_nodes (registry : Registry) (cameras : List VCamSample.CameraConfig)
    (store : Store)
    (hkey : ∀ c ∈ cameras, specKeyName c.id)
    (hnodup : (cameras.map (fun c => c.id.map registry.upcase)).Nodup)
    (hfresh : ∀ c ∈ cameras, ∀ n ∈ store.nodes,
      n.name.map registry.upcase ≠ c.id.map registry.upcase)
    (hcreate : ∀ c ∈ cameras,
      registry.RegCreateKeyExW (wstringOfBuffer (c_str c.id)) = ERROR_SUCCESS) :
    (VCamSample.saveLoop registry cameras store).1 = S_OK ∧
    (VCamSample.saveLoop registry cameras store).2.1 = VCamSample.StatusText.allSaved ∧
    (VCamSample.saveLoop registry cameras store).2.2.nodes =
      store.nodes ++ cameras.map VCamSample.nodeOfCamera ∧
    (cameras ≠ [] → (VCamSample.saveLoop registry cameras store).2.2.status = ERROR_SUCCESS) := by
  induction cameras generalizing store with
  | nil => simp [VCamSample.saveLoop]
  | cons c rest ih =>
    have hc := hcreate c (List.mem_cons_self _ _)
    have hk := hkey c (List.mem_cons_self _ _)
    have hnd : c.id.map registry.upcase ∉ rest.map (fun c => c.id.map registry.upcase) ∧
        (rest.map (fun c => c.id.map registry.upcase)).Nodup := List.nodup_cons.1 hnodup
    have hstep : VCamSample.createKeyAndSetValues registry.upcase c store =
        { status := ERROR_SUCCESS, nodes := store.nodes ++ [VCamSample.nodeOfCamera c] } := by
      rw [createKeyAndSetValues_keyName _ _ _ hk,
        writeNode_fresh _ _ _ _ (hfresh c (List.mem_cons_self _ _)), nodeOfCamera_keyName c hk]
    have hfresh2 : ∀ d ∈ rest, ∀ n ∈ store.nodes ++ [VCamSample.nodeOfCamera c],
        n.name.map registry.upcase ≠ d.id.map registry.upcase := by
      intro d hd n hn
      rcases List.mem_append.1 hn with hn | hn
      · exact hfresh d (List.mem_cons_of_mem _ hd) n hn
      · rw [List.mem_singleton.1 hn, nodeOfCamera_name c hk]
        intro e
        exact hnd.1 (List.mem_map.2 ⟨d, hd, e.symm⟩)
    have h := ih { status := ERROR_SUCCESS, nodes := store.nodes ++ [VCamSample.nodeOfCamera c] }
      (fun d hd => hkey d (List.mem_cons_of_mem _ hd)) hnd.2 hfresh2
      (fun d hd => hcreate d (List.mem_cons_of_mem _ hd))
    simp only [VCamSample.saveLoop, hc, if_true, hstep]
    refine ⟨h.1, h.2.1, by rw [h.2.2.1]; simp, ?_⟩
    intro _
    by_cases hrest : rest = []
    · subst hrest; simp [VCamSample.saveLoop]
    · exact h.2.2.2 hrest

theorem readCamera_nodeOfCamera (c : VCamSample.CameraConfig) (h : specEditorDefinition c) :
    VCamSample.readCamera (VCamSample.nodeOfCamera c) = c := by
  obtain ⟨hkey, hurl, hurlLen, hname, hnameLen⟩ := h
  have h1 := wstringOfBuffer_c_str c.id hkey.2.1
  have h2 := regQuery_string_fits c.url 2048 hurlLen hurl
  have h3 : (match RegQueryValueExW_string (some c.friendlyName) 256 with
      | some s => s
      | none => L "WinCamHTTP Virtual Camera " ++ c.id) = c.friendlyName := by
    by_cases hlen : c.friendlyName.length < 256
    · rw [regQuery_string_fits c.friendlyName 256 hlen hname]
    · rw [regQuery_string_too_long c.friendlyName 256 (Nat.le_of_not_lt hlen)]
      rcases hnameLen with hl | hd
      · exact absurd hl hlen
      · rw [hd]; rfl
  cases c with
  | mk id url friendlyName width height enabled =>
    simp only at h1 h2 h3
    cases enabled <;>
      simp [VCamSample.readCamera, VCamSample.nodeOfCamera, VCamSample.setValues, bareNode,
        h1, h2, h3, RegQueryValueExW_dword]

theorem load_saved_nodes (cameras : List VCamSample.CameraConfig)
    (hvalid : ∀ c ∈ cameras, specEditorDefinition c) :
    ((cameras.map VCamSample.nodeOfCamera).filter (fun n => n.readable)).map
      VCamSample.readCamera = cameras := by
  induction cameras with
  | nil => rfl
  | cons c rest ih =>
    have hr : (VCamSample.nodeOfCamera c).readable = true := rfl
    simp only [List.map_cons, List.filter_cons, hr, if_true]
    rw [readCamera_nodeOfCamera c (hvalid c (List.mem_cons_self _ _)),
      ih (fun c2 hc2 => hvalid c2 (List.mem_cons_of_mem _ hc2))]

/-- C7 (as stated, refuted): the store holds the one key `camera1`.  The editor loads
it, and its Add Camera button appends a definition with the id `Camera1`, which no
definition in the list has.  The two ids are distinct, and an elevated save of the
two definitions returns `S_OK`; but the registry takes both ids for the same key, so
the store then holds one node, and `LoadCamerasFromRegistry` returns one definition,
which is neither of the two that were saved. -/
theorem C7_counterexample_ids_differing_in_case :
    lowerCaseStore.WellFormed ∧
    VCamSample.LoadCamerasFromRegistry lowerCaseStore [] = (S_OK, [lowerCaseCamera]) ∧
    VCamSample.WndProc_1002 [lowerCaseCamera] 2 = some [lowerCaseCamera, addedCamera] ∧
    ([lowerCaseCamera, addedCamera].map (fun c => c.id)).Nodup ∧
    (VCamSample.SaveCamerasToRegistry elevated [lowerCaseCamera, addedCamera]
      lowerCaseStore).1 = S_OK ∧
    (VCamSample.LoadCamerasFromRegistry
      (VCamSample.SaveCamerasToRegistry elevated [lowerCaseCamera, addedCamera]
        lowerCaseStore).2.2 []).2 = [{ addedCamera with id := L "camera1" }] ∧
    ¬ (VCamSample.LoadCamerasFromRegistry
      (VCamSample.SaveCamerasToRegistry elevated [lowerCaseCamera, addedCamera]
        lowerCaseStore).2.2 []).2.Perm [lowerCaseCamera, addedCamera] := by
  decide

/-- C7 (amended): for every list of camera definitions as the editor holds them, with
ids that are pairwise distinct under the folding by which the registry compares key
names, every prior store and every outcome of the registry calls: if the deletion
left no node behind (it succeeded, or there was none) and `SaveCamerasToRegistry`
returns `S_OK`, then `LoadCamerasFromRegistry` on the saved store, in whatever order
the store enumerates its nodes, returns exactly the same definitions up to order,
each with the same id, url, width, height, friendly name and enabled flag. -/
theorem C7_save_load_round_trip (registry : Registry)
    (cameras : List VCamSample.CameraConfig) (store enumerated : Store)
    (prior : List VCamSample.CameraConfig)
    (hdistinct : (cameras.map (fun c => c.id.map registry.upcase)).Nodup)
    (hvalid : ∀ c ∈ cameras, specEditorDefinition c)
    (hdeleted : registry.RegDeleteTree = ERROR_SUCCESS ∨ store.nodes = [])
    (hok : (VCamSample.SaveCamerasToRegistry registry cameras store).1 = S_OK)
    (hstatus : enumerated.status =
      (VCamSample.SaveCamerasToRegistry registry cameras store).2.2.status)
    (horder : enumerated.nodes.Perm
      (VCamSample.SaveCamerasToRegistry registry cameras store).2.2.nodes) :
    (VCamSample.LoadCamerasFromRegistry enumerated prior).1 = S_OK ∧
    (VCamSample.LoadCamerasFromRegistry enumerated prior).2.Perm cameras ∧
    (VCamSample.LoadCamerasFromRegistry
      (VCamSample.SaveCamerasToRegistry registry cameras store).2.2 prior).2 = cameras := by
  have hnone : (RegDeleteTree registry.RegDeleteTree store).nodes = [] := by
    rcases hdeleted with h | h
    · simp [RegDeleteTree, h]
    · unfold RegDeleteTree; split
      · rfl
      · exact h
  have hload : ∀ st : Store, st.nodes = [] →
      VCamSample.LoadCamerasFromRegistry st prior = (S_OK, []) := by
    intro st hst
    unfold VCamSample.LoadCamerasFromRegistry
    split
    · rfl
    · rw [hst]; rfl
  by_cases hempty : cameras = []
  · subst hempty
    rw [save_empty] at hstatus horder ⊢
    rw [hnone] at horder
    have hen : enumerated.nodes = [] := List.perm_nil.1 horder
    rw [hload enumerated hen, hload _ hnone]
    exact ⟨rfl, List.Perm.refl _, rfl⟩
  · have hne : cameras.isEmpty = false := by
      cases cameras with
      | nil => exact absurd rfl hempty
      | cons c rest => rfl
    have hsave : VCamSample.SaveCamerasToRegistry registry cameras store =
        VCamSample.saveLoop registry cameras (RegDeleteTree registry.RegDeleteTree store) := by
      simp [VCamSample.SaveCamerasToRegistry, hne]
    rw [hsave] at hok hstatus horder ⊢
    obtain ⟨_, _, hnodes, hst⟩ := saveLoop_nodes registry cameras
      (RegDeleteTree registry.RegDeleteTree store) (fun c hc => (hvalid c hc).1) hdistinct
      (by intro c _ n hn; rw [hnone] at hn; cases hn)
      (saveLoop_creates_of_ok registry cameras _ hok)
    have hst2 := hst hempty
    rw [hnone, List.nil_append] at hnodes
    rw [hst2] at hstatus
    rw [hnodes] at horder
    refine ⟨?_, ?_, ?_⟩
    · simp [VCamSample.LoadCamerasFromRegistry, hstatus]
    · simp only [VCamSample.LoadCamerasFromRegistry, hstatus, ne_eq, not_true_eq_false,
        if_false, editor_loadLoop_eq, List.nil_append]
      have hp := (horder.filter (fun n => n.readable)).map VCamSample.readCamera
      rw [load_saved_nodes cameras hvalid] at hp
      exact hp
    · simp only [VCamSample.LoadCamerasFromRegistry, hst2, ne_eq, not_true_eq_false,
        if_false, editor_loadLoop_eq, List.nil_append, hnodes]
      exact load_saved_nodes cameras hvalid

/-- Witness of C7 (amended): `Camera1` and `Camera2` are saved by an elevated run over
a store that held `Camera1`, and loaded back from a store that enumerates `Camera2`
first. -/
theorem C7_save_load_round_trip_witness :
    ((sampleCameras.map (fun c => c.id.map elevated.upcase)).Nodup ∧
      (∀ c ∈ sampleCameras, specEditorDefinition c) ∧
      (elevated.RegDeleteTree = ERROR_SUCCESS ∨ camera1Store.nodes = []) ∧
      (VCamSample.SaveCamerasToRegistry elevated sampleCameras camera1Store).1 = S_OK) ∧
    (VCamSample.LoadCamerasFromRegistry
      { status := 0, nodes := (sampleCameras.map VCamSample.nodeOfCamera).reverse } []).1 = S_OK ∧
    (VCamSample.LoadCamerasFromRegistry
      { status := 0, nodes := (sampleCameras.map VCamSample.nodeOfCamera).reverse }
      []).2.Perm sampleCameras ∧
    (VCamSample.LoadCamerasFromRegistry
      (VCamSample.SaveCamerasToRegistry elevated sampleCameras camera1Store).2.2 []).2 =
      sampleCameras :=
  ⟨⟨by decide, by decide, Or.inl rfl, by decide⟩,
    C7_save_load_round_trip elevated sampleCameras camera1Store
      { status := 0, nodes := (sampleCameras.map VCamSample.nodeOfCamera).reverse } []
      (by decide) (by decide) (Or.inl rfl) (by decide) (by decide)
      (by decide)⟩

/-! ## C10: the lifecycle manager and the `Enabled` attribute -/

theorem manager_loadLoop_withEnabled (nodes : List RegNode) (enabled : RegNode → Option Nat)
    (acc : List WinCamHTTP.CameraInfo) :
    WinCamHTTP.loadLoop (nodes.map (fun n => { n with Enabled := enabled n })) acc =
      WinCamHTTP.loadLoop nodes acc := by
  induction nodes generalizing acc with
  | nil => rfl
  | cons n rest ih =>
    have hread : ∀ (r : Bool) (e : Option Nat),
        WinCamHTTP.readCamera { n with readable := r, Enabled := e } =
          WinCamHTTP.readCamera n := fun _ _ => rfl
    by_cases hr : n.readable = true
    · simp only [List.map_cons, WinCamHTTP.loadLoop, hr, if_true, hread, ih]
    · simp only [List.map_cons, WinCamHTTP.loadLoop, hr, if_false, ih]
      simp

theorem registerLoop_all_succeed (mf : WinCamHTTP.Outcomes)
    (hall : ∀ i, FAILED (mf.create i) = false ∧ FAILED (mf.start i) = false)
    (i : Nat) (cameras : List WinCamHTTP.CameraInfo) :
    WinCamHTTP.registerLoop mf i cameras =
      (S_OK, cameras.map (fun camera => { camera with vcam := true }),
        specRegisterAndStartAll cameras) := by
  induction cameras generalizing i with
  | nil => rfl
  | cons camera rest ih =>
    simp [WinCamHTTP.registerLoop, (hall i).1, (hall i).2, ih (i + 1), specRegisterAndStartAll]

/-- C10 (as stated, refuted): the store holds the single definition `Camera1` with
`Enabled = 0` and every external call succeeds: the lifecycle manager passes
`Camera1` to the register call, starts it, and removes it at shutdown. -/
theorem C10_counterexample_disabled_camera_started :
    (WinCamHTTP.wWinMain
      { status := 0, nodes := [{ bareNode (L "Camera1") with Enabled := some 0 }] }
      { create := fun _ => S_OK, start := fun _ => S_OK, remove := fun _ => S_OK } 0).2 =
      [WinCamHTTP.ExternalCall.MFCreateVirtualCamera (L "Camera1")
          (L "WinCamHTTP Virtual Camera Camera1") (WinCamHTTP.GenerateCameraClsid (L "Camera1")),
        WinCamHTTP.ExternalCall.Start (L "Camera1"),
        WinCamHTTP.ExternalCall.Remove (L "Camera1")] := by
  decide

/-- C10 (amended): the lifecycle manager does not read the `Enabled` attribute: the
definitions it loads and every external call of a run are the same whatever
`Enabled` values the store holds; it loads one definition for every stored node that
can be opened, in enumeration order, and when no register or start call fails it
registers and starts every one of them, in that order. -/
theorem C10_manager_ignores_enabled (store : Store) (enabled : RegNode → Option Nat)
    (mf : WinCamHTTP.Outcomes) (wParam : Int) :
    WinCamHTTP.LoadCameraSettingsFromRegistry (store.withEnabled enabled) [] =
      WinCamHTTP.LoadCameraSettingsFromRegistry store [] ∧
    WinCamHTTP.wWinMain (store.withEnabled enabled) mf wParam =
      WinCamHTTP.wWinMain store mf wParam ∧
    (store.status = ERROR_SUCCESS →
      (WinCamHTTP.LoadCameraSettingsFromRegistry store []).2 =
        (store.nodes.filter (fun n => n.readable)).map WinCamHTTP.readCamera) ∧
    ((∀ i, FAILED (mf.create i) = false ∧ FAILED (mf.start i) = false) →
      (WinCamHTTP.RegisterVirtualCameras mf
          (WinCamHTTP.LoadCameraSettingsFromRegistry store []).2).2.2 =
        specRegisterAndStartAll (WinCamHTTP.LoadCameraSettingsFromRegistry store []).2) := by
  have hload : WinCamHTTP.LoadCameraSettingsFromRegistry (store.withEnabled enabled) [] =
      WinCamHTTP.LoadCameraSettingsFromRegistry store [] := by
    simp only [WinCamHTTP.LoadCameraSettingsFromRegistry, Store.withEnabled,
      manager_loadLoop_withEnabled]
  refine ⟨hload, ?_, ?_, ?_⟩
  · simp only [WinCamHTTP.wWinMain, hload]
  · intro hopen
    simp [WinCamHTTP.LoadCameraSettingsFromRegistry, hopen, manager_loadLoop_eq]
  · intro hall
    simp only [WinCamHTTP.RegisterVirtualCameras, registerLoop_all_succeed mf hall]

/-! ## C11 to C14: startup and shutdown of the lifecycle manager -/

theorem failed_hresult_from_win32 (x : Nat) (h : x ≠ 0) : FAILED (HRESULT_FROM_WIN32 x) = true := by
  unfold HRESULT_FROM_WIN32 FAILED
  split
  · rename_i hc
    rcases hc with h0 | h1
    · exact absurd h0 h
    · simpa using h1
  · have hbit : Nat.testBit ((x &&& 0x0000FFFF) ||| (7 <<< 16) ||| 0x80000000) 31 = true := by
      have h31 : Nat.testBit 0x80000000 31 = true := by decide
      simp [Nat.testBit_or, h31]
    have hge := Nat.testBit_implies_ge hbit
    simpa using hge

/-- C11: when the store cannot be opened or holds no camera node, the lifecycle
manager's `wWinMain` ends with exit code `-1` and makes no external call at all (no
register, no start); for a store that cannot be opened the load itself reports a
failed status. -/
theorem C11_startup_fails_without_definitions (store : Store) (mf : WinCamHTTP.Outcomes)
    (wParam : Int) (h : store.status ≠ ERROR_SUCCESS ∨ store.nodes = []) :
    WinCamHTTP.wWinMain store mf wParam = (-1, []) ∧
    (WinCamHTTP.LoadCameraSettingsFromRegistry store []).2 = [] ∧
    (store.status ≠ ERROR_SUCCESS →
      FAILED (WinCamHTTP.LoadCameraSettingsFromRegistry store []).1 = true) := by
  have hempty : (WinCamHTTP.LoadCameraSettingsFromRegistry store []).2 = [] := by
    by_cases hs : store.status = ERROR_SUCCESS
    · rcases h with h | h
      · exact absurd hs h
      · simp [WinCamHTTP.LoadCameraSettingsFromRegistry, hs, h, WinCamHTTP.loadLoop]
    · simp [WinCamHTTP.LoadCameraSettingsFromRegistry, hs]
  refine ⟨?_, hempty, ?_⟩
  · simp [WinCamHTTP.wWinMain, hempty]
  · intro hs
    simp only [WinCamHTTP.LoadCameraSettingsFromRegistry, hs, ne_eq, not_false_eq_true, if_true]
    exact failed_hresult_from_win32 _ hs

/-- Witness of C11: a store whose open is denied (status 5) although it holds a node. -/
theorem C11_startup_fails_without_definitions_witness :
    WinCamHTTP.wWinMain { status := 5, nodes := [bareNode (L "Camera1")] }
        (createFailsAt 7) 0 = (-1, []) ∧
    (WinCamHTTP.LoadCameraSettingsFromRegistry
        { status := 5, nodes := [bareNode (L "Camera1")] } []).2 = [] ∧
    (({ status := 5, nodes := [bareNode (L "Camera1")] } : Store).status ≠ ERROR_SUCCESS →
      FAILED (WinCamHTTP.LoadCameraSettingsFromRegistry
        { status := 5, nodes := [bareNode (L "Camera1")] } []).1 = true) :=
  C11_startup_fails_without_definitions { status := 5, nodes := [bareNode (L "Camera1")] }
    (createFailsAt 7) 0 (Or.inl (by decide))

theorem specRegisterAndStartAll_append (a b : List WinCamHTTP.CameraInfo) :
    specRegisterAndStartAll (a ++ b) = specRegisterAndStartAll a ++ specRegisterAndStartAll b := by
  induction a with
  | nil => rfl
  | cons c rest ih => simp [specRegisterAndStartAll, ih]

theorem registerLoop_cons_ok (mf : WinCamHTTP.Outcomes) (i : Nat) (c : WinCamHTTP.CameraInfo)
    (l : List WinCamHTTP.CameraInfo) (hc : FAILED (mf.create i) = false)
    (hs : FAILED (mf.start i) = false) :
    WinCamHTTP.registerLoop mf i (c :: l) =
      ((WinCamHTTP.registerLoop mf (i + 1) l).1,
       { c with vcam := true } :: (WinCamHTTP.registerLoop mf (i + 1) l).2.1,
       createCallOf c :: WinCamHTTP.ExternalCall.Start c.id ::
         (WinCamHTTP.registerLoop mf (i + 1) l).2.2) := by
  simp [WinCamHTTP.registerLoop, hc, hs, createCallOf]

/-- The register loop on a list whose first failing definition sits behind `pre`. -/
theorem registerLoop_first_failure (mf : WinCamHTTP.Outcomes) (i : Nat)
    (pre : List WinCamHTTP.CameraInfo) (camera : WinCamHTTP.CameraInfo)
    (post : List WinCamHTTP.CameraInfo)
    (hbefore : ∀ j, j < pre.length →
      FAILED (mf.create (i + j)) = false ∧ FAILED (mf.start (i + j)) = false)
    (hfail : FAILED (mf.create (i + pre.length)) = true ∨
      FAILED (mf.start (i + pre.length)) = true) :
    WinCamHTTP.registerLoop mf i (pre ++ camera :: post) =
      (if FAILED (mf.create (i + pre.length)) then mf.create (i + pre.length)
        else mf.start (i + pre.length),
       pre.map (fun c => { c with vcam := true }) ++
         { camera with vcam := !FAILED (mf.create (i + pre.length)) } :: post,
       specRegisterAndStartAll pre ++
         (if FAILED (mf.create (i + pre.length)) then [createCallOf camera]
          else [createCallOf camera, WinCamHTTP.ExternalCall.Start camera.id])) := by
  induction pre generalizing i with
  | nil =>
    simp only [List.nil_append, List.length_nil, Nat.add_zero, List.map_nil,
      specRegisterAndStartAll] at hfail ⊢
    by_cases hc : FAILED (mf.create i) = true
    · simp [WinCamHTTP.registerLoop, hc, createCallOf]
    · have hs : FAILED (mf.start i) = true := by
        rcases hfail with h | h
        · exact absurd h hc
        · exact h
      simp [WinCamHTTP.registerLoop, hc, hs, createCallOf]
  | cons c rest ih =>
    have h0 := hbefore 0 (by simp)
    simp only [Nat.add_zero] at h0
    have hrest := ih (i + 1)
      (fun j hj => by
        have := hbefore (j + 1) (by simp; omega)
        rwa [show i + (j + 1) = i + 1 + j by omega] at this)
      (by rwa [show i + 1 + rest.length = i + (c :: rest).length by simp; omega])
    rw [show i + 1 + rest.length = i + (c :: rest).length by simp; omega] at hrest
    rw [List.cons_append, registerLoop_cons_ok mf i c _ h0.1 h0.2, hrest]
    simp [specRegisterAndStartAll, createCallOf]

/-- C12: for every list of definitions and every assignment of outcomes to the
register and start calls, if the definition `camera` at position `k` (behind `pre`,
in front of `post`) is the first whose register or start call fails, then
`RegisterVirtualCameras` returns the status of that failing call, has made the
register and the start call for every definition before `k`, in list order, then
the register call for `k` (and its start call when the register call succeeded),
and no call for any definition after `k`; the definitions before `k` hold their
started cameras, those after `k` are untouched. -/
theorem C12_register_aborts_at_first_failure (mf : WinCamHTTP.Outcomes)
    (pre : List WinCamHTTP.CameraInfo) (camera : WinCamHTTP.CameraInfo)
    (post : List WinCamHTTP.CameraInfo)
    (hbefore : ∀ j, j < pre.length →
      FAILED (mf.create j) = false ∧ FAILED (mf.start j) = false)
    (hfail : FAILED (mf.create pre.length) = true ∨ FAILED (mf.start pre.length) = true) :
    (WinCamHTTP.RegisterVirtualCameras mf (pre ++ camera :: post)).1 =
      (if FAILED (mf.create pre.length) then mf.create pre.length else mf.start pre.length) ∧
    FAILED (WinCamHTTP.RegisterVirtualCameras mf (pre ++ camera :: post)).1 = true ∧
    (WinCamHTTP.RegisterVirtualCameras mf (pre ++ camera :: post)).2.2 =
      specRegisterAndStartAll pre ++
        (if FAILED (mf.create pre.length) then [createCallOf camera]
         else [createCallOf camera, WinCamHTTP.ExternalCall.Start camera.id]) ∧
    (WinCamHTTP.RegisterVirtualCameras mf (pre ++ camera :: post)).2.1 =
      pre.map (fun c => { c with vcam := true }) ++
        { camera with vcam := !FAILED (mf.create pre.length) } :: post := by
  have h := registerLoop_first_failure mf 0 pre camera post
    (fun j hj => by simpa using hbefore j hj) (by simpa using hfail)
  simp only [Nat.zero_add] at h
  unfold WinCamHTTP.RegisterVirtualCameras
  rw [h]
  refine ⟨rfl, ?_, rfl, rfl⟩
  by_cases hc : FAILED (mf.create pre.length) = true
  · simp [hc]
  · rcases hfail with hf | hf
    · exact absurd hf hc
    · simp [hc, hf]

/-- Witness of C12: definitions `A`, `B`, `C`, the register call of `B` fails: `A` is
registered and started, `B` is only attempted, no call is made for `C`, and the
returned status is the one of the register call of `B`. -/
theorem C12_register_aborts_at_first_failure_witness :
    (WinCamHTTP.RegisterVirtualCameras (createFailsAt 1)
        [sampleInfo (L "A"), sampleInfo (L "B"), sampleInfo (L "C")]).1 = E_FAIL ∧
    FAILED (WinCamHTTP.RegisterVirtualCameras (createFailsAt 1)
        [sampleInfo (L "A"), sampleInfo (L "B"), sampleInfo (L "C")]).1 = true ∧
    (WinCamHTTP.RegisterVirtualCameras (createFailsAt 1)
        [sampleInfo (L "A"), sampleInfo (L "B"), sampleInfo (L "C")]).2.2 =
      [createCallOf (sampleInfo (L "A")), WinCamHTTP.ExternalCall.Start (L "A"),
        createCallOf (sampleInfo (L "B"))] ∧
    (WinCamHTTP.RegisterVirtualCameras (createFailsAt 1)
        [sampleInfo (L "A"), sampleInfo (L "B"), sampleInfo (L "C")]).2.1 =
      [{ sampleInfo (L "A") with vcam := true }, sampleInfo (L "B"), sampleInfo (L "C")] :=
  C12_register_aborts_at_first_failure (createFailsAt 1) [sampleInfo (L "A")]
    (sampleInfo (L "B")) [sampleInfo (L "C")] (by decide) (by decide)

/-- C13 (as stated, refuted): the store holds `A` and `B`, the register call of `B`
fails after `A` was registered and started.  The run makes the calls register `A`,
start `A`, register `B` and then no call at all: `A` is never passed to `Remove`,
because the cleanup is skipped when `_camerasStarted` is false. -/
theorem C13_counterexample_aborted_startup :
    WinCamHTTP.wWinMain { status := 0, nodes := [bareNode (L "A"), bareNode (L "B")] }
        (createFailsAt 1) 0 =
      (0, [createCallOf (sampleInfo (L "A")), WinCamHTTP.ExternalCall.Start (L "A"),
        createCallOf (sampleInfo (L "B"))]) ∧
    WinCamHTTP.ExternalCall.Remove (L "A") ∉
      (WinCamHTTP.wWinMain { status := 0, nodes := [bareNode (L "A"), bareNode (L "B")] }
        (createFailsAt 1) 0).2 := by
  decide

theorem unregisterLoop_calls (mf : WinCamHTTP.Outcomes) (i : Nat)
    (cameras : List WinCamHTTP.CameraInfo) :
    (WinCamHTTP.unregisterLoop mf i cameras).map Prod.fst =
      (cameras.filter (fun camera => camera.vcam)).map
        (fun camera => WinCamHTTP.ExternalCall.Remove camera.id) := by
  induction cameras generalizing i with
  | nil => rfl
  | cons c rest ih =>
    by_cases hv : c.vcam = true
    · simp [WinCamHTTP.unregisterLoop, hv, ih]
    · simp [WinCamHTTP.unregisterLoop, hv, ih]

/-- C14: for every list of cameras and every assignment of outcomes to the stop calls,
`UnregisterVirtualCameras` returns `S_OK` and its `Remove` calls are exactly one
call for every camera that holds a handle, in list order; the calls are the same
for any two assignments of outcomes, so a failing stop does not end the loop.  With
two started cameras and a failing first stop both stops are attempted. -/
theorem C14_unregister_attempts_every_stop :
    (∀ (mf other : WinCamHTTP.Outcomes) (cameras : List WinCamHTTP.CameraInfo),
      (WinCamHTTP.UnregisterVirtualCameras mf cameras).1 = S_OK ∧
      (WinCamHTTP.UnregisterVirtualCameras mf cameras).2.map Prod.fst =
        (cameras.filter (fun camera => camera.vcam)).map
          (fun camera => WinCamHTTP.ExternalCall.Remove camera.id) ∧
      (WinCamHTTP.UnregisterVirtualCameras mf cameras).2.length =
        cameras.countP (fun camera => camera.vcam) ∧
      (WinCamHTTP.UnregisterVirtualCameras other cameras).2.map Prod.fst =
        (WinCamHTTP.UnregisterVirtualCameras mf cameras).2.map Prod.fst) ∧
    WinCamHTTP.UnregisterVirtualCameras (removeFailsAt 0)
        [{ sampleInfo (L "A") with vcam := true }, { sampleInfo (L "B") with vcam := true }] =
      (S_OK, [(WinCamHTTP.ExternalCall.Remove (L "A"), E_FAIL),
        (WinCamHTTP.ExternalCall.Remove (L "B"), S_OK)]) := by
  refine ⟨?_, by decide⟩
  intro mf other cameras
  have h1 := unregisterLoop_calls mf 0 cameras
  have h2 := unregisterLoop_calls other 0 cameras
  refine ⟨rfl, h1, ?_, ?_⟩
  · have hlen := congrArg List.length h1
    simp only [List.length_map] at hlen
    simp only [WinCamHTTP.UnregisterVirtualCameras, hlen, List.countP_eq_length_filter]
  · simp only [WinCamHTTP.UnregisterVirtualCameras, h1, h2]

/-! ## C15, C17, C18: the activation DLL -/

/-- C15 (as stated, refuted): the store holds `Camera1`, the requested identifier is
the identity derived from `Camera1`, so it is a key of the rebuilt index; the
requested interface is one the class factory does not implement: the call still
returns `E_NOINTERFACE`. -/
theorem C15_counterexample_unsupported_interface :
    StdMap.find
        (VCamSampleSource.LoadCameraRegistrations
          { status := 0, nodes := [bareNode (L "Camera1")] } [])
        (GUID_ToStringW (VCamSampleSource.GenerateCameraClsid (c_str (L "Camera1")))) =
      some (L "Camera1") ∧
    (VCamSampleSource.DllGetClassObject sampleQueryInterface
        { status := 0, nodes := [bareNode (L "Camera1")] }
        (VCamSampleSource.GenerateCameraClsid (c_str (L "Camera1")))
        IID_IClassFactory2 true []).1 = E_NOINTERFACE := by
  decide

/-- C15 (amended): with a non-null output pointer `DllGetClassObject` rebuilds the
index from the store; when the requested identifier is not a key of the rebuilt
index it returns `E_NOINTERFACE` and creates no class factory; when it is a key it
creates a class factory bound to that identifier and returns what the factory's
`QueryInterface` answers for the requested interface.  Hence `E_NOINTERFACE` is
returned exactly when the identifier is not a key or the factory itself answers
`E_NOINTERFACE`.  With a null output pointer it returns `E_POINTER` and leaves the
index as it was. -/
theorem C15_dllGetClassObject_outcome (QueryInterface : GUID → Nat) (store : Store)
    (rclsid riid : GUID) (g_cameraMap : CameraMap) :
    (VCamSampleSource.DllGetClassObject QueryInterface store rclsid riid true g_cameraMap).2.2 =
      VCamSampleSource.LoadCameraRegistrations store g_cameraMap ∧
    (StdMap.find (VCamSampleSource.LoadCameraRegistrations store g_cameraMap)
        (GUID_ToStringW rclsid) = none →
      (VCamSampleSource.DllGetClassObject QueryInterface store rclsid riid true g_cameraMap).1 =
          E_NOINTERFACE ∧
        (VCamSampleSource.DllGetClassObject QueryInterface store rclsid riid true
          g_cameraMap).2.1 = none) ∧
    (StdMap.find (VCamSampleSource.LoadCameraRegistrations store g_cameraMap)
        (GUID_ToStringW rclsid) ≠ none →
      (VCamSampleSource.DllGetClassObject QueryInterface store rclsid riid true g_cameraMap).1 =
          QueryInterface riid ∧
        (VCamSampleSource.DllGetClassObject QueryInterface store rclsid riid true
          g_cameraMap).2.1 = some rclsid) ∧
    ((VCamSampleSource.DllGetClassObject QueryInterface store rclsid riid true g_cameraMap).1 =
        E_NOINTERFACE ↔
      (StdMap.find (VCamSampleSource.LoadCameraRegistrations store g_cameraMap)
          (GUID_ToStringW rclsid) = none ∨ QueryInterface riid = E_NOINTERFACE)) ∧
    VCamSampleSource.DllGetClassObject QueryInterface store rclsid riid false g_cameraMap =
      (E_POINTER, none, g_cameraMap) := by
  cases hfind : StdMap.find (VCamSampleSource.LoadCameraRegistrations store g_cameraMap)
      (GUID_ToStringW rclsid) with
  | none => simp [VCamSampleSource.DllGetClassObject, hfind]
  | some id => simp [VCamSampleSource.DllGetClassObject, hfind]

theorem enumLoop_append (a b : List RegNode) (m : CameraMap) :
    VCamSampleSource.enumLoop (a ++ b) m =
      VCamSampleSource.enumLoop b (VCamSampleSource.enumLoop a m) := by
  induction a generalizing m with
  | nil => rfl
  | cons n rest ih =>
    rw [List.cons_append]
    simp only [VCamSampleSource.enumLoop]
    exact ih _

/-- C17: for every store (that can be opened) and every node `n` of its enumeration
behind which no node with the same derived identity follows, in particular the
later of two distinct colliding ids, the index built by `LoadCameraRegistrations`
maps that identity to the id of `n`, whatever precedes `n` and whatever the index
held before; resolving the identity on the built index, or on an empty index,
returns that id. -/
theorem C17_last_enumerated_id_wins (store : Store) (g_cameraMap : CameraMap)
    (pre post : List RegNode) (n : RegNode)
    (hwf : store.WellFormed) (hopen : store.status = ERROR_SUCCESS)
    (hnodes : store.nodes = pre ++ n :: post)
    (hlast : ∀ p ∈ post, VCamSampleSource.GenerateCameraClsid (c_str p.name) ≠
      VCamSampleSource.GenerateCameraClsid (c_str n.name)) :
    StdMap.find (VCamSampleSource.LoadCameraRegistrations store g_cameraMap)
        (GUID_ToStringW (VCamSampleSource.GenerateCameraClsid (c_str n.name))) =
      some n.name ∧
    (VCamSampleSource.GetCameraIdForClsid store
        (VCamSampleSource.GenerateCameraClsid (c_str n.name))
        (VCamSampleSource.LoadCameraRegistrations store g_cameraMap)).1 = n.name ∧
    (VCamSampleSource.GetCameraIdForClsid store
        (VCamSampleSource.GenerateCameraClsid (c_str n.name)) []).1 = n.name := by
  have hn : n ∈ store.nodes := by rw [hnodes]; simp
  have hnul : (0 : Nat) ∉ n.name := (hwf.1 n hn).1
  have hne : store.nodes ≠ [] := List.ne_nil_of_mem hn
  have hfind : ∀ m : CameraMap,
      StdMap.find (VCamSampleSource.LoadCameraRegistrations store m)
        (GUID_ToStringW (VCamSampleSource.GenerateCameraClsid (c_str n.name))) =
      some n.name := by
    intro m
    rw [loadCameraRegistrations_nodes store m hopen hne, hnodes, enumLoop_append]
    simp only [VCamSampleSource.enumLoop]
    rw [find_enumLoop_of_no_node post _
      (GUID_ToStringW (VCamSampleSource.GenerateCameraClsid (c_str n.name))) hlast, find_assign]
    simp [wstringOfBuffer_c_str n.name hnul]
  refine ⟨hfind g_cameraMap, ?_, ?_⟩
  · simp only [VCamSampleSource.GetCameraIdForClsid, hfind g_cameraMap]
  · simp only [VCamSampleSource.GetCameraIdForClsid, StdMap.find, hfind []]

/-- Witness of C17: `Aa` and `BB` are distinct ids with one derived identity; the store
enumerates `Aa`, then `BB`, and the index, built over a stale entry, resolves the
shared identity to `BB`. -/
theorem C17_last_enumerated_id_wins_witness :
    (L "Aa" ≠ L "BB" ∧
      VCamSampleSource.GenerateCameraClsid (c_str (L "Aa")) =
        VCamSampleSource.GenerateCameraClsid (c_str (L "BB"))) ∧
    (StdMap.find
        (VCamSampleSource.LoadCameraRegistrations
          { status := 0, nodes := [bareNode (L "Aa"), bareNode (L "BB")] }
          [(CLSID_VCamBase, L "Old")])
        (GUID_ToStringW (VCamSampleSource.GenerateCameraClsid (c_str (L "BB")))) =
      some (L "BB") ∧
    (VCamSampleSource.GetCameraIdForClsid
        { status := 0, nodes := [bareNode (L "Aa"), bareNode (L "BB")] }
        (VCamSampleSource.GenerateCameraClsid (c_str (L "BB")))
        (VCamSampleSource.LoadCameraRegistrations
          { status := 0, nodes := [bareNode (L "Aa"), bareNode (L "BB")] }
          [(CLSID_VCamBase, L "Old")])).1 = L "BB" ∧
    (VCamSampleSource.GetCameraIdForClsid
        { status := 0, nodes := [bareNode (L "Aa"), bareNode (L "BB")] }
        (VCamSampleSource.GenerateCameraClsid (c_str (L "BB"))) []).1 = L "BB") :=
  ⟨by decide,
   C17_last_enumerated_id_wins
    { status := 0, nodes := [bareNode (L "Aa"), bareNode (L "BB")] }
    [(CLSID_VCamBase, L "Old")] [bareNode (L "Aa")] [] (bareNode (L "BB"))
    (by decide) rfl rfl (by decide)⟩

/-- C18 (the code at the failing input): the identity derived from `Camera1` ends in
the bytes `8c 39 f7 83` and the one derived from `Camera2` in `8d 39 f7 83`; neither
is the GUID the comment above `CLSID_VCamBase` gives for it, and the base constant
is not the identity of `Camera1`.  The fallback entry of an unreadable store
therefore does not answer for the identity under which the lifecycle manager
registers `Camera1`. -/
theorem C18_camera1_identity_is_not_the_base_constant :
    VCamSampleSource.GenerateCameraClsid (c_str (L "Camera1")) =
      { CLSID_VCamBase with Data4 := [0xa3, 0xb2, 0x6f, 0x53, 0x8c, 0x39, 0xf7, 0x83] } ∧
    VCamSampleSource.GenerateCameraClsid (c_str (L "Camera2")) =
      { CLSID_VCamBase with Data4 := [0xa3, 0xb2, 0x6f, 0x53, 0x8d, 0x39, 0xf7, 0x83] } ∧
    WinCamHTTP.GenerateCameraClsid (L "Camera1") =
      VCamSampleSource.GenerateCameraClsid (c_str (L "Camera1")) ∧
    VCamSampleSource.GenerateCameraClsid (c_str (L "Camera1")) ≠ CLSID_VCamBase ∧
    VCamSampleSource.GenerateCameraClsid (c_str (L "Camera2")) ≠
      { CLSID_VCamBase with Data4 := [0xa3, 0xb2, 0x6f, 0x53, 0x63, 0x30, 0x9f, 0x53] } ∧
    StdMap.find (VCamSampleSource.LoadCameraRegistrations { status := 5, nodes := [] } [])
      (GUID_ToStringW (WinCamHTTP.GenerateCameraClsid (L "Camera1"))) = none := by
  decide

/-! ## C16: a save that fails part-way -/

theorem hresult_code_from_win32 (r : Nat) (h0 : r ≠ 0) (h : r < 65536) :
    HRESULT_FROM_WIN32 r % 65536 = r := by
  have hc : ¬ (r = 0 ∨ 2147483648 ≤ r) := by omega
  have hmod : ∀ x : Nat, x % 65536 = 65535 &&& x := by
    intro x
    rw [Nat.and_comm]
    exact (Nat.and_pow_two_sub_one_eq_mod x 16).symm
  simp only [HRESULT_FROM_WIN32, hc, if_false]
  rw [hmod, Nat.and_or_distrib_left, Nat.and_or_distrib_left]
  have e1 : 65535 &&& (7 <<< 16) = 0 := by decide
  have e2 : 65535 &&& 0x80000000 = 0 := by decide
  have e3 : r &&& 65535 = r := by
    rw [Nat.and_comm, ← hmod]; exact Nat.mod_eq_of_lt h
  rw [e1, e2, Nat.or_zero, Nat.or_zero, e3, ← hmod]
  exact Nat.mod_eq_of_lt h

/-- C16 (as stated, refuted): the definitions `A`, `B`, `C` are saved over a store that
held `Old`.  (1) In a run without rights the deletion and the first create call are
denied: the call fails at position 0 with the status of error 5, and the store still
holds `Old`, so the prior content is not gone.  (2) When the deletion succeeds and
only creating the node of `B` is denied, the call fails with the same status and the
store holds the node of `A` only: no node of `B`, neither partial nor complete, is
present.  (3) The editor loads `camera1`, its Add Camera button appends `Camera1` and
then `Camera2`, and creating the node of `Camera2` is denied: the store then holds
one node, `camera1` with the values of `Camera1`, so the definition at position 0 is
not in it. -/
theorem C16_counterexample_failing_node_absent :
    (VCamSample.SaveCamerasToRegistry notElevated abcCameras
        { status := 0, nodes := [bareNode (L "Old")] } =
      (0x80070005, VCamSample.StatusText.failedToSave (L "A") 5,
        { status := 0, nodes := [bareNode (L "Old")] })) ∧
    ((VCamSample.SaveCamerasToRegistry (createDeniedFor (L "B")) abcCameras
        { status := 0, nodes := [bareNode (L "Old")] }).1 = 0x80070005 ∧
      (VCamSample.SaveCamerasToRegistry (createDeniedFor (L "B")) abcCameras
        { status := 0, nodes := [bareNode (L "Old")] }).2.2.ids = [L "A"] ∧
      L "B" ∉ (VCamSample.SaveCamerasToRegistry (createDeniedFor (L "B")) abcCameras
        { status := 0, nodes := [bareNode (L "Old")] }).2.2.ids) ∧
    ((VCamSample.WndProc_1002 [lowerCaseCamera] 3).bind (fun l => VCamSample.WndProc_1002 l 3) =
        some [lowerCaseCamera, addedCamera,
          { addedCamera with id := L "Camera2",
                             friendlyName := L "WinCamHTTP Virtual Camera Camera2" }] ∧
      (VCamSample.SaveCamerasToRegistry (createDeniedFor (L "Camera2"))
        [lowerCaseCamera, addedCamera,
          { addedCamera with id := L "Camera2",
                             friendlyName := L "WinCamHTTP Virtual Camera Camera2" }]
        lowerCaseStore).1 = 0x80070005 ∧
      (VCamSample.SaveCamerasToRegistry (createDeniedFor (L "Camera2"))
        [lowerCaseCamera, addedCamera,
          { addedCamera with id := L "Camera2",
                             friendlyName := L "WinCamHTTP Virtual Camera Camera2" }]
        lowerCaseStore).2.2.nodes =
        [{ VCamSample.nodeOfCamera addedCamera with name := L "camera1" }]) := by
  decide

/-- C16 (amended): for every prior store content, every list of definitions and every
outcome of the registry calls, if `camera`, at position `k` behind `pre` and in front
of `post`, is the first definition whose node cannot be created, then
`SaveCamerasToRegistry` returns the failed status `HRESULT_FROM_WIN32` of the create
status (whose low 16 bits are that Win32 error code) and names the offending id, as
`c_str()` gives it, in the status text.  If moreover the deletion left no node
behind (it succeeded, or there was none) and the ids name one key each and are
pairwise distinct under the folding by which the registry compares key names, then
afterwards the store holds exactly the nodes of the definitions before `k`, in
order, with all their attributes: nothing of the prior content, no node for
definition `k` and no node for any definition after `k`. -/
theorem C16_save_failure_keeps_earlier_nodes_only (registry : Registry)
    (pre : List VCamSample.CameraConfig) (camera : VCamSample.CameraConfig)
    (post : List VCamSample.CameraConfig) (store : Store)
    (hpre : ∀ p ∈ pre, registry.RegCreateKeyExW (wstringOfBuffer (c_str p.id)) = ERROR_SUCCESS)
    (hfail : registry.RegCreateKeyExW (wstringOfBuffer (c_str camera.id)) ≠ ERROR_SUCCESS) :
    (VCamSample.SaveCamerasToRegistry registry (pre ++ camera :: post) store).1 =
      HRESULT_FROM_WIN32 (registry.RegCreateKeyExW (wstringOfBuffer (c_str camera.id))) ∧
    FAILED (VCamSample.SaveCamerasToRegistry registry (pre ++ camera :: post) store).1 = true ∧
    (registry.RegCreateKeyExW (wstringOfBuffer (c_str camera.id)) < 65536 →
      (VCamSample.SaveCamerasToRegistry registry (pre ++ camera :: post) store).1 % 65536 =
        registry.RegCreateKeyExW (wstringOfBuffer (c_str camera.id))) ∧
    (VCamSample.SaveCamerasToRegistry registry (pre ++ camera :: post) store).2.1 =
      VCamSample.StatusText.failedToSave (wstringOfBuffer (c_str camera.id))
        (registry.RegCreateKeyExW (wstringOfBuffer (c_str camera.id))) ∧
    ((registry.RegDeleteTree = ERROR_SUCCESS ∨ store.nodes = []) →
      (∀ c ∈ pre ++ camera :: post, specKeyName c.id) →
      ((pre ++ camera :: post).map (fun c => c.id.map registry.upcase)).Nodup →
      (VCamSample.SaveCamerasToRegistry registry (pre ++ camera :: post) store).2.2.nodes =
        pre.map VCamSample.nodeOfCamera ∧
      (∀ n ∈ (VCamSample.SaveCamerasToRegistry registry (pre ++ camera :: post)
          store).2.2.nodes,
        n.name.map registry.upcase ≠ camera.id.map registry.upcase) ∧
      (∀ d ∈ post, ∀ n ∈ (VCamSample.SaveCamerasToRegistry registry (pre ++ camera :: post)
          store).2.2.nodes,
        n.name.map registry.upcase ≠ d.id.map registry.upcase)) := by
  have hne : (pre ++ camera :: post).isEmpty = false := by
    cases pre <;> rfl
  have hsave : VCamSample.SaveCamerasToRegistry registry (pre ++ camera :: post) store =
      (HRESULT_FROM_WIN32 (registry.RegCreateKeyExW (wstringOfBuffer (c_str camera.id))),
       VCamSample.StatusText.failedToSave (wstringOfBuffer (c_str camera.id))
         (registry.RegCreateKeyExW (wstringOfBuffer (c_str camera.id))),
       (VCamSample.saveLoop registry pre (RegDeleteTree registry.RegDeleteTree store)).2.2) := by
    simp only [VCamSample.SaveCamerasToRegistry, hne]
    exact saveLoop_fails_at registry pre camera post _ hpre hfail
  rw [hsave]
  refine ⟨rfl, failed_hresult_from_win32 _ hfail, ?_, rfl, ?_⟩
  · intro hlt
    exact hresult_code_from_win32 _ hfail hlt
  · intro hdeleted hvalid hdistinct
    have hnone : (RegDeleteTree registry.RegDeleteTree store).nodes = [] := by
      rcases hdeleted with h | h
      · simp [RegDeleteTree, h]
      · unfold RegDeleteTree; split
        · rfl
        · exact h
    have hsplit := List.nodup_append.1 (by simpa using hdistinct :
      (pre.map (fun c => c.id.map registry.upcase) ++
        (camera :: post).map (fun c => c.id.map registry.upcase)).Nodup)
    have hkeypre : ∀ c ∈ pre, specKeyName c.id :=
      fun c hc => hvalid c (List.mem_append_left _ hc)
    obtain ⟨_, _, hnodes, _⟩ := saveLoop_nodes registry pre
      (RegDeleteTree registry.RegDeleteTree store) hkeypre hsplit.1
      (by intro c _ n hn; rw [hnone] at hn; cases hn) hpre
    rw [hnone, List.nil_append] at hnodes
    have hother : ∀ d ∈ camera :: post, ∀ n ∈ pre.map VCamSample.nodeOfCamera,
        n.name.map registry.upcase ≠ d.id.map registry.upcase := by
      intro d hd n hn e
      obtain ⟨c, hc, rfl⟩ := List.mem_map.1 hn
      rw [nodeOfCamera_name c (hkeypre c hc)] at e
      exact hsplit.2.2 (List.mem_map.2 ⟨c, hc, rfl⟩) (List.mem_map.2 ⟨d, hd, e.symm⟩)
    refine ⟨hnodes, ?_, ?_⟩
    · intro n hn
      exact hother camera (List.mem_cons_self _ _) n (hnodes ▸ hn)
    · intro d hd n hn
      exact hother d (List.mem_cons_of_mem _ hd) n (hnodes ▸ hn)

/-- Witness of C16 (amended): `A`, `B`, `C` saved over a store that held `Old`, with the
deletion carried out and the create of `B` denied. -/
theorem C16_save_failure_keeps_earlier_nodes_only_witness :
    ((∀ p ∈ abcCameras.take 1,
        (createDeniedFor (L "B")).RegCreateKeyExW (wstringOfBuffer (c_str p.id)) =
          ERROR_SUCCESS) ∧
      (createDeniedFor (L "B")).RegCreateKeyExW (wstringOfBuffer (c_str (L "B"))) ≠
        ERROR_SUCCESS) ∧
    (VCamSample.SaveCamerasToRegistry (createDeniedFor (L "B")) abcCameras
        { status := 0, nodes := [bareNode (L "Old")] }).1 = HRESULT_FROM_WIN32 5 ∧
    (VCamSample.SaveCamerasToRegistry (createDeniedFor (L "B")) abcCameras
        { status := 0, nodes := [bareNode (L "Old")] }).2.1 =
      VCamSample.StatusText.failedToSave (L "B") 5 ∧
    (VCamSample.SaveCamerasToRegistry (createDeniedFor (L "B")) abcCameras
        { status := 0, nodes := [bareNode (L "Old")] }).2.2.nodes =
      (abcCameras.take 1).map VCamSample.nodeOfCamera :=
  ⟨⟨by decide, by decide⟩,
    (C16_save_failure_keeps_earlier_nodes_only (createDeniedFor (L "B")) (abcCameras.take 1)
      { id := L "B", url := L "http://cam/b", friendlyName := L "Cam B",
        width := 800, height := 600, enabled := true }
      (abcCameras.drop 2) { status := 0, nodes := [bareNode (L "Old")] }
      (by decide) (by decide)).1,
    (C16_save_failure_keeps_earlier_nodes_only (createDeniedFor (L "B")) (abcCameras.take 1)
      { id := L "B", url := L "http://cam/b", friendlyName := L "Cam B",
        width := 800, height := 600, enabled := true }
      (abcCameras.drop 2) { status := 0, nodes := [bareNode (L "Old")] }
      (by decide) (by decide)).2.2.2.1,
    ((C16_save_failure_keeps_earlier_nodes_only (createDeniedFor (L "B")) (abcCameras.take 1)
      { id := L "B", url := L "http://cam/b", friendlyName := L "Cam B",
        width := 800, height := 600, enabled := true }
      (abcCameras.drop 2) { status := 0, nodes := [bareNode (L "Old")] }
      (by decide) (by decide)).2.2.2.2 (Or.inl rfl) (by decide) (by decide)).1⟩

/-! ## C19: the search loop terminates -/

/-- The loop is still running after `fuel` candidates when all of them are in use. -/
theorem generateUniqueCameraIdLoop_none (cameras : List VCamSample.CameraConfig)
    (fuel counter : Nat)
    (hused : ∀ M, counter ≤ M → M < counter + fuel →
      (L "Camera" ++ VCamSample.to_wstring M) ∈ cameras.map (fun camera => camera.id)) :
    VCamSample.GenerateUniqueCameraIdLoop cameras fuel counter = none := by
  induction fuel generalizing counter with
  | zero => rfl
  | succ fuel ih =>
    unfold VCamSample.GenerateUniqueCameraIdLoop
    have : VCamSample.idExists cameras (L "Camera" ++ VCamSample.to_wstring counter) = true :=
      (idExists_iff _ _).2 (hused counter (le_refl _) (by omega))
    simp only [this, Bool.not_true, Bool.false_eq_true, if_false]
    exact ih (counter + 1) (fun M h1 h2 => hused M (by omega) (by omega))

/-- C19: for every list of existing cameras the search loop of `GenerateUniqueCameraId`
ends: there is a number `tried` of candidates, at least one and at most the number
of existing cameras plus one, such that the loop has not ended before `tried`
candidates were tried, and ends with an id once `tried` candidates were tried
(or more are allowed); with room for `length + 1` candidates it always returns.
For the existing ids `Camera1`, `Camera2` exactly three candidates are tried. -/
theorem C19_generateUniqueCameraId_terminates :
    (∀ cameras : List VCamSample.CameraConfig, ∃ tried id,
      1 ≤ tried ∧ tried ≤ cameras.length + 1 ∧
      (∀ fuel, fuel < tried → VCamSample.GenerateUniqueCameraId cameras fuel = none) ∧
      (∀ extra, VCamSample.GenerateUniqueCameraId cameras (tried + extra) = some id) ∧
      VCamSample.GenerateUniqueCameraId cameras (cameras.length + 1) = some id) ∧
    (VCamSample.GenerateUniqueCameraId
      [{ id := L "Camera1", url := [], friendlyName := [], width := 640, height := 480,
         enabled := true },
       { id := L "Camera2", url := [], friendlyName := [], width := 640, height := 480,
         enabled := true }] 2 = none ∧
     VCamSample.GenerateUniqueCameraId
      [{ id := L "Camera1", url := [], friendlyName := [], width := 640, height := 480,
         enabled := true },
       { id := L "Camera2", url := [], friendlyName := [], width := 640, height := 480,
         enabled := true }] 3 = some (L "Camera3")) := by
  refine ⟨?_, by decide⟩
  intro cameras
  classical
  have hex : ∃ N, 1 ≤ N ∧ N ≤ cameras.length + 1 ∧
      (L "Camera" ++ VCamSample.to_wstring N) ∉ cameras.map (fun camera => camera.id) :=
    exists_unused_candidate cameras
  obtain ⟨h1, h2, h3⟩ := Nat.find_spec hex
  have hused : ∀ M, 1 ≤ M → M < Nat.find hex →
      (L "Camera" ++ VCamSample.to_wstring M) ∈ cameras.map (fun camera => camera.id) := by
    intro M hM1 hM2
    by_contra hM
    exact Nat.find_min hex hM2 ⟨hM1, by omega, hM⟩
  have hsome : ∀ fuel, Nat.find hex ≤ fuel →
      VCamSample.GenerateUniqueCameraId cameras fuel =
        some (L "Camera" ++ VCamSample.to_wstring (Nat.find hex)) := by
    intro fuel hfuel
    exact generateUniqueCameraIdLoop_eq cameras fuel 1 _ h1 (by omega) h3 hused
  refine ⟨Nat.find hex, L "Camera" ++ VCamSample.to_wstring (Nat.find hex), h1, h2, ?_, ?_, ?_⟩
  · intro fuel hfuel
    exact generateUniqueCameraIdLoop_none cameras fuel 1
      (fun M hM1 hM2 => hused M hM1 (by omega))
  · intro extra
    exact hsome _ (by omega)
  · exact hsome _ h2

/-! ## C20: ids that differ in one code unit -/

theorem hash_step_injective (h1 h2 c : Nat) (hb1 : h1 < 4294967296) (hb2 : h2 < 4294967296)
    (h : (h1 * 31 + c) % 4294967296 = (h2 * 31 + c) % 4294967296) : h1 = h2 := by
  have hmod : h1 * 31 + c ≡ h2 * 31 + c [MOD 4294967296] := h
  have hmul : 31 * h1 ≡ 31 * h2 [MOD 4294967296] := by
    have := Nat.ModEq.add_right_cancel' c hmod
    simpa [Nat.mul_comm] using this
  have hcop : Nat.gcd 4294967296 31 = 1 := by decide
  have := Nat.ModEq.cancel_left_of_coprime hcop hmul
  have h3 : h1 % 4294967296 = h2 % 4294967296 := this
  rwa [Nat.mod_eq_of_lt hb1, Nat.mod_eq_of_lt hb2] at h3

theorem manager_hashLoop_lt (cameraId : WString) (hash : Nat) (h : hash < 4294967296) :
    WinCamHTTP.hashLoop cameraId hash < 4294967296 := by
  induction cameraId generalizing hash with
  | nil => exact h
  | cons c rest ih =>
    simp only [WinCamHTTP.hashLoop]
    exact ih _ (Nat.mod_lt _ (by decide))

theorem manager_hashLoop_injective (post : WString) (h1 h2 : Nat) (hb1 : h1 < 4294967296)
    (hb2 : h2 < 4294967296)
    (h : WinCamHTTP.hashLoop post h1 = WinCamHTTP.hashLoop post h2) : h1 = h2 := by
  induction post generalizing h1 h2 with
  | nil => exact h
  | cons c rest ih =>
    simp only [WinCamHTTP.hashLoop] at h
    have := ih _ _ (Nat.mod_lt _ (by decide)) (Nat.mod_lt _ (by decide)) h
    exact hash_step_injective h1 h2 c hb1 hb2 this

theorem manager_hashLoop_append (a b : WString) (hash : Nat) :
    WinCamHTTP.hashLoop (a ++ b) hash = WinCamHTTP.hashLoop b (WinCamHTTP.hashLoop a hash) := by
  induction a generalizing hash with
  | nil => rfl
  | cons c rest ih =>
    rw [List.cons_append]
    simp only [WinCamHTTP.hashLoop]
    exact ih _

theorem specLittleEndian32_injective (h1 h2 : Nat) (hb1 : h1 < 4294967296)
    (hb2 : h2 < 4294967296) (h : specLittleEndian32 h1 = specLittleEndian32 h2) : h1 = h2 := by
  simp only [specLittleEndian32, List.cons.injEq, and_true] at h
  omega

theorem manager_clsid_ne_of_one_unit (pre post : WString) (x y : Nat)
    (hx : x < 65536) (hy : y < 65536) (hxy : x ≠ y) :
    WinCamHTTP.GenerateCameraClsid (pre ++ x :: post) ≠
      WinCamHTTP.GenerateCameraClsid (pre ++ y :: post) := by
  intro heq
  have hpre := manager_hashLoop_lt pre 0 (by decide)
  have e : ∀ s : WString, WinCamHTTP.GenerateCameraClsid s =
      setHashBytes CLSID_VCamBase (WinCamHTTP.hashLoop s 0) := fun _ => rfl
  rw [e, e, setHashBytes_base, setHashBytes_base] at heq
  have hd4 := congrArg GUID.Data4 heq
  simp only at hd4
  have hle := List.append_cancel_left hd4
  have hhash := specLittleEndian32_injective _ _
    (manager_hashLoop_lt _ 0 (by decide)) (manager_hashLoop_lt _ 0 (by decide)) hle
  rw [manager_hashLoop_append, manager_hashLoop_append] at hhash
  simp only [WinCamHTTP.hashLoop] at hhash
  have hstep := manager_hashLoop_injective post _ _
    (Nat.mod_lt _ (by decide)) (Nat.mod_lt _ (by decide)) hhash
  omega

/-- C20: for every two ids of the same length that differ in exactly one code unit
(`x` against `y`, both below `2^16`, between the same `pre` and `post`), the derived
identities differ: for the lifecycle manager's `GenerateCameraClsid`, for the GUID
computed in the editor, and for the DLL's `GenerateCameraClsid` on any two buffers
that hold these ids in front of their terminator.  The ids `Camera1` to `Camera9`
have nine pairwise distinct identities. -/
theorem C20_one_code_unit_changes_identity (pre post : WString) (x y : Nat)
    (bufferX bufferY : List Nat)
    (hx : x < 65536) (hy : y < 65536) (hxy : x ≠ y)
    (hbufferX : wstringOfBuffer bufferX = pre ++ x :: post)
    (hbufferY : wstringOfBuffer bufferY = pre ++ y :: post) :
    WinCamHTTP.GenerateCameraClsid (pre ++ x :: post) ≠
      WinCamHTTP.GenerateCameraClsid (pre ++ y :: post) ∧
    VCamSample.GenerateCameraClsidString_clsid (pre ++ x :: post) ≠
      VCamSample.GenerateCameraClsidString_clsid (pre ++ y :: post) ∧
    VCamSampleSource.GenerateCameraClsid bufferX ≠
      VCamSampleSource.GenerateCameraClsid bufferY ∧
    ([L "Camera1", L "Camera2", L "Camera3", L "Camera4", L "Camera5", L "Camera6",
        L "Camera7", L "Camera8", L "Camera9"].map WinCamHTTP.GenerateCameraClsid).Nodup ∧
    ([L "Camera1", L "Camera2", L "Camera3", L "Camera4", L "Camera5", L "Camera6",
        L "Camera7", L "Camera8", L "Camera9"].map
      (fun id => VCamSampleSource.GenerateCameraClsid (c_str id))).Nodup := by
  have hm := manager_clsid_ne_of_one_unit pre post x y hx hy hxy
  refine ⟨hm, ?_, ?_, by decide, by decide⟩
  · rw [editor_clsid_eq_manager, editor_clsid_eq_manager]; exact hm
  · rw [dll_clsid_eq_manager, dll_clsid_eq_manager, hbufferX, hbufferY]; exact hm

/-- Witness of C20: `Camera1` against `Camera2`, which differ in their last code unit. -/
theorem C20_one_code_unit_changes_identity_witness :
    WinCamHTTP.GenerateCameraClsid (L "Camera1") ≠ WinCamHTTP.GenerateCameraClsid (L "Camera2") ∧
    VCamSampleSource.GenerateCameraClsid (c_str (L "Camera1")) ≠
      VCamSampleSource.GenerateCameraClsid (c_str (L "Camera2")) :=
  have h := C20_one_code_unit_changes_identity (L "Camera") [] 49 50
    (c_str (L "Camera1")) (c_str (L "Camera2")) (by decide) (by decide) (by decide)
    (by decide) (by decide)
  ⟨h.1, h.2.2.1⟩

/-! ## C13: shutdown after a completed startup -/

theorem unregisterLoop_after_start (mf : WinCamHTTP.Outcomes) (i : Nat)
    (cameras : List WinCamHTTP.CameraInfo) :
    (WinCamHTTP.unregisterLoop mf i
        (cameras.map (fun camera => { camera with vcam := true }))).map Prod.fst =
      specRemoveAll cameras := by
  rw [unregisterLoop_calls]
  induction cameras with
  | nil => rfl
  | cons c rest ih =>
    simp only [specRemoveAll, List.map_cons, List.filter_cons, if_true] at ih ⊢
    rw [ih]

/-- C13 (amended): for every run of the lifecycle manager that loads at least one
definition and in which no register or start call fails, so that every loaded
definition is started, the run registers and starts every definition in order and
its shutdown path then calls `Remove` exactly once on every one of them, in order,
whatever the stop calls answer. -/
theorem C13_shutdown_after_completed_startup (store : Store) (mf : WinCamHTTP.Outcomes)
    (wParam : Int)
    (hloaded : (WinCamHTTP.LoadCameraSettingsFromRegistry store []).2 ≠ [])
    (hall : ∀ i, FAILED (mf.create i) = false ∧ FAILED (mf.start i) = false) :
    WinCamHTTP.wWinMain store mf wParam =
      (wParam,
        specRegisterAndStartAll (WinCamHTTP.LoadCameraSettingsFromRegistry store []).2 ++
          specRemoveAll (WinCamHTTP.LoadCameraSettingsFromRegistry store []).2) := by
  have hopen : store.status = ERROR_SUCCESS := by
    by_contra hs
    exact hloaded (by simp [WinCamHTTP.LoadCameraSettingsFromRegistry, hs])
  have hstatus : (WinCamHTTP.LoadCameraSettingsFromRegistry store []).1 = S_OK := by
    simp [WinCamHTTP.LoadCameraSettingsFromRegistry, hopen]
  have hnotempty : (WinCamHTTP.LoadCameraSettingsFromRegistry store []).2.isEmpty = false := by
    cases hc : (WinCamHTTP.LoadCameraSettingsFromRegistry store []).2 with
    | nil => exact absurd hc hloaded
    | cons a b => rfl
  have hfailed : FAILED S_OK = false := by decide
  have hsucc : SUCCEEDED S_OK = true := by decide
  simp only [WinCamHTTP.wWinMain, hstatus, hnotempty, hfailed, Bool.or_self,
    Bool.false_eq_true, if_false, WinCamHTTP.RegisterVirtualCameras,
    registerLoop_all_succeed mf hall, hsucc, if_true, WinCamHTTP.UnregisterVirtualCameras,
    unregisterLoop_after_start]

/-- Witness of C13 (amended): the store holds `A` and `B` and every call succeeds. -/
theorem C13_shutdown_after_completed_startup_witness :
    WinCamHTTP.wWinMain { status := 0, nodes := [bareNode (L "A"), bareNode (L "B")] }
        allSucceed 0 =
      (0, [createCallOf (sampleInfo (L "A")), WinCamHTTP.ExternalCall.Start (L "A"),
        createCallOf (sampleInfo (L "B")), WinCamHTTP.ExternalCall.Start (L "B"),
        WinCamHTTP.ExternalCall.Remove (L "A"), WinCamHTTP.ExternalCall.Remove (L "B")]) :=
  C13_shutdown_after_completed_startup
    { status := 0, nodes := [bareNode (L "A"), bareNode (L "B")] } allSucceed 0
    (by decide) (fun _ => ⟨rfl, rfl⟩)
